import Mathlib

/-!
Shallow embedding of the EC2 fleet-reconciliation module
(`cloud/amazon/ec2.py`) and verification of its specification claims.

The module's pure logic (filter translation, validation order, the
idempotency short-circuit, count reconciliation, termination selection,
and the bounded polling loops) is translated into executable Lean
definitions.  The cloud provider itself is out of scope for the source
repository, so provider responses are modelled as an explicit oracle
structure (`EC2`): a static instance list for queries, plus
time-indexed response functions for the polling loops.  Time advances
only on `time.sleep` calls, matching the source's interval-based polls.
-/

instance [DecidableEq ε] [DecidableEq α] : DecidableEq (Except ε α) := fun x y =>
  match x, y with
  | .ok a, .ok b => decidable_of_iff (a = b) (by simp)
  | .error a, .error b => decidable_of_iff (a = b) (by simp)
  | .ok _, .error _ => isFalse (by simp)
  | .error _, .ok _ => isFalse (by simp)

namespace Ec2

/-- An instance record as observed from the provider: identifier,
lifecycle state, the idempotency (client) token it was created with,
its tag mapping and availability zone.  Only the fields the module's
logic inspects are modelled. -/
structure Inst where
  id : String
  state : String
  clientToken : Option String := none
  tags : List (String × String) := []
  zone : String := ""
deriving DecidableEq, Repr

/-- The projection of an instance produced by `get_instance_info`:
the flattened info dictionary.  Only the fields the claims are about
(identifier and state) are carried. -/
structure InstInfo where
  id : String
  state : String
deriving DecidableEq, Repr

/-- Translation of `get_instance_info`: builds the flattened info
record from an instance. -/
def get_instance_info (inst : Inst) : InstInfo :=
  { id := inst.id, state := inst.state }

/-- A key of the provider filter dictionary built by `get_reservations`.
The Python code uses string keys; they are embedded structurally
(the rendering `tagKey ↦ "tag-key"`, `tag n ↦ "tag:" ++ n`,
`stateName ↦ "instance-state-name"`, `zone ↦ "availability-zone"`,
`clientToken ↦ "client-token"` is injective, so dict-update collisions
are preserved exactly). -/
inductive FilterKey where
  | tagKey
  | tag (name : String)
  | stateName
  | zone
  | clientToken
deriving DecidableEq, Repr

/-- A single entry of a tag specification given in list shape: each
list element is either a bare key (string) or a key→value mapping. -/
inductive TagItem where
  | str (s : String)
  | dict (d : List (String × Option String))
deriving DecidableEq, Repr

/-- A tag filter specification in one of the three accepted shapes
(scalar key, list of items, mapping).  Mapping values are `Option`:
`none` models Python `None`. -/
inductive TagsSpec where
  | str (s : String)
  | list (xs : List TagItem)
  | dict (d : List (String × Option String))
deriving DecidableEq, Repr

/-- Translation of `_set_none_to_blank`: falsy mapping values (`None`
or the empty string) are canonicalized to the empty string.  The
Python original also recurses into nested dict values; the embedding
models flat string/None values, which is the shape every call site
uses. -/
def _set_none_to_blank (d : List (String × Option String)) : List (String × String) :=
  d.map (fun kv => (kv.1, kv.2.getD ""))

/-- Python `dict.update` with a single key: replaces the value in
place if the key is present, otherwise appends the pair. -/
def updateFilter (fs : List (FilterKey × String)) (k : FilterKey) (v : String) :
    List (FilterKey × String) :=
  match fs with
  | [] => [(k, v)]
  | (k', v') :: rest =>
    if k' = k then (k, v) :: rest else (k', v') :: updateFilter rest k v

/-- Folds one tag item of the list shape into the filter dict,
exactly as the `type(tags) is list` branch of `get_reservations` does:
a string becomes a `tag-key` entry, a dict is blanked and becomes
`tag:<name>` entries. -/
def tagItemFilters (fs : List (FilterKey × String)) : TagItem → List (FilterKey × String)
  | .str s => updateFilter fs .tagKey s
  | .dict d => (_set_none_to_blank d).foldl (fun fs kv => updateFilter fs (.tag kv.1) kv.2) fs

/-- Translation of the filter-construction part of `get_reservations`:
builds the provider filter dict from the tag specification and the
optional state and zone constraints.  (The `literal_eval` string
parse is outside the model: inputs arrive already structured.)
`state`/`zone` use Python truthiness: an empty string is skipped. -/
def get_reservations_filters (tags : Option TagsSpec) (state : Option String)
    (zone : Option String) : List (FilterKey × String) :=
  let fs : List (FilterKey × String) :=
    match tags with
    | none => []
    | some (.str s) => updateFilter [] .tagKey s
    | some (.list xs) => xs.foldl tagItemFilters []
    | some (.dict d) =>
        (_set_none_to_blank d).foldl (fun fs kv => updateFilter fs (.tag kv.1) kv.2) []
  let fs :=
    match state with
    | none => fs
    | some st => if st = "" then fs else updateFilter fs .stateName st
  match zone with
  | none => fs
  | some z => if z = "" then fs else updateFilter fs .zone z

/-- Modelled from the spec: the provider's `list-instances-with-filter`
operation is an out-of-scope collaborator; per the spec's Filter
Translator policy a `tag-key` clause is a key-existence predicate, a
`tag:<name>` clause is a key=value predicate, and the state / zone /
client-token clauses compare the corresponding instance fields. -/
def matchesClause (i : Inst) : FilterKey × String → Bool
  | (.tagKey, k) => (i.tags.lookup k).isSome
  | (.tag n, v) => i.tags.lookup n == some v
  | (.stateName, v) => i.state == v
  | (.zone, v) => i.zone == v
  | (.clientToken, v) => i.clientToken == some v

/-- Modelled from the spec: a filter dict matches an instance when
every clause matches (provider filters conjoin). -/
def matchesFilters (i : Inst) (fs : List (FilterKey × String)) : Bool :=
  fs.all (matchesClause i)

/-- A block-device specification as supplied in the `volumes`
parameter.  `none` models a key that is absent from the Python dict
(the code tests presence with `'key' in volume`). -/
structure Volume where
  device_name : Option String := none
  device_type : Option String := none
  volume_type : Option String := none
  snapshot : Option String := none
  ephemeral : Option String := none
  volume_size : Option Int := none
  iops : Option Int := none
  encrypted : Option Bool := none
  delete_on_termination : Bool := false
deriving DecidableEq, Repr

/-- The module parameter set (`module.params`) restricted to the
fields `create_instances`, `enforce_count` and `terminate_instances`
read.  Defaults mirror the argument spec in `main()`. -/
structure Params where
  key_name : Option String := none
  id : Option String := none
  group : Option (List String) := none
  group_id : Option (List String) := none
  zone : Option String := none
  instance_type : Option String := none
  tenancy : String := "default"
  spot_price : Option String := none
  spot_type : String := "one-time"
  image : Option String := none
  count : Int := 1
  monitoring : Bool := false
  wait : Bool := false
  wait_timeout : Nat := 300
  spot_wait_timeout : Nat := 600
  placement_group : Option String := none
  user_data : Option String := none
  instance_tags : Option (List (String × String)) := none
  vpc_subnet_id : Option String := none
  assign_public_ip : Bool := false
  private_ip : Option String := none
  instance_profile_name : Option String := none
  volumes : Option (List Volume) := none
  ebs_optimized : Bool := false
  exact_count : Option Int := none
  count_tag : Option TagsSpec := none
  source_dest_check : Bool := true
  termination_protection : Bool := false
  network_interfaces : Option (List String) := none
deriving Repr

/-- Python truthiness of an optional string (`None` and `""` are
falsy). -/
def truthyStr : Option String → Bool
  | none => false
  | some s => !(s == "")

/-- Python truthiness of an optional list (`None` and `[]` are
falsy). -/
def truthyList : Option (List α) → Bool
  | none => false
  | some l => !l.isEmpty

/-- Python truthiness of an optional integer (`None` and `0` are
falsy). -/
def truthyInt : Option Int → Bool
  | none => false
  | some n => !(n == 0)

/-- The boto client capability checks probed by the module
(`boto_supports_profile_name_arg`,
`boto_supports_associate_public_ip_address`,
`boto_supports_param_in_spot_request` for `placement_group`). -/
structure BotoCaps where
  profile_name : Bool := true
  associate_public_ip : Bool := true
  spot_placement_group : Bool := true
deriving DecidableEq, Repr

/-- A security group record returned by `get_all_security_groups`. -/
structure SecGroup where
  id : String
  name : String
  vpc : Option String := none
deriving DecidableEq, Repr

/-- A spot instance request record as returned by
`get_all_spot_instance_requests`: the request id and the instance id
assigned to it, when one exists. -/
structure SpotReq where
  id : String
  instance_id : Option String := none
deriving DecidableEq, Repr

/-- One `module.fail_json` message of the source, as an inductive so
that distinct failure sites are distinguishable by constructor.  The
timeout messages carry the poll-loop clock value standing in for the
`time.asctime()` the Python message embeds. -/
inductive Msg where
  | useOnlyOneTypeOfParameter
  | regionMustBeSpecified
  | instanceProfileNameRequiresBoto
  | assignPublicIpRequiresBoto
  | assignPublicIpOnlyWithVpcSubnetId
  | deviceNameMustBeSet
  | deviceTypeDeprecated
  | sizeMustBeSpecified
  | io1RequiresIops
  | iopsRatioExceeded
  | noEncryptedFromSnapshot
  | cannotSetBothEphemeralAndSnapshot
  | privateIpOnlyOnDemand
  | placementGroupRequiresBoto
  | instanceCreationFailed (code : String)
  | pollError (code : String)
  | instancesTerminatedPreviously (ids : List String)
  | waitForSpotRequestsTimeout (t : Nat)
  | waitForInstancesRunningTimeout (t : Nat)
  | instanceTaggingFailed (code : String)
  | countTagRequired
  | instanceIdsShouldBeList
  | unableToTerminate (id : String)
  | waitForInstanceTerminationTimeout (t : Nat)
deriving DecidableEq, Repr

/-- How an execution of a module function can halt without returning:
through the module failure channel (`fail_json`), through a Python
`NameError` on an undefined local, through an uncaught raised
exception, through another Python-level error, or by never leaving an
unbounded retry loop. -/
inductive Halt where
  | failJson (m : Msg)
  | nameError (var : String)
  | raised
  | pyError (what : String)
  | hang
deriving DecidableEq, Repr

/-- A provider (boto) call issued by the module, recorded in
execution order. -/
inductive Call where
  | getAllSubnets
  | getAllSecurityGroups
  | getAllInstances
  | getAllSnapshots (snapId : String)
  | runInstances (minMaxCount : Int)
  | requestSpotInstances (count : Int)
  | getAllSpotRequests
  | terminateCall (ids : List String)
  | createTags
  | modifyAttribute (instId : String)
  | instanceUpdate (instId : String)
deriving DecidableEq, Repr

/-- A creation call is `run_instances` or `request_spot_instances`;
everything else is a read, tag or attribute operation. -/
def Call.isCreate : Call → Bool
  | .runInstances _ => true
  | .requestSpotInstances _ => true
  | _ => false

/-- Recognizes a `terminate_instances` provider call. -/
def Call.isTerminate : Call → Bool
  | .terminateCall _ => true
  | _ => false

/-- A provider response to `get_all_instances(instids)` inside a
polling loop: the transient `InvalidInstanceID.NotFound` error, some
other provider error, or a list of reservations (each a list of
instances). -/
inductive PollResp where
  | notFound
  | err (code : String)
  | res (reservations : List (List Inst))
deriving DecidableEq, Repr

/-- Modelled from the spec: the provider client, an out-of-scope
collaborator ("can create instances, request spot capacity, list
instances with filters, tag/modify/terminate instances").  Static
queries read the `instances` snapshot; the polling loops read
time-indexed response functions (time advances only on `sleep`);
creation and spot submission are response functions that may carry a
provider error code. -/
structure EC2 where
  instances : List Inst := []
  hasVpc : Bool := true
  subnetVpc : String → Option String := fun _ => none
  groups : List SecGroup := []
  snapshotSize : String → Option Int := fun _ => none
  runInstances : Int → Except String (List Inst) := fun _ => .ok []
  requestSpot : Int → Except String (List String) := fun _ => .ok []
  spotRequests : Nat → List SpotReq := fun _ => []
  pollInstances : Nat → List String → PollResp := fun _ _ => .res []
  terminateErr : String → Option String := fun _ => none
  createTagsErr : Option String := none

/-- A module-function result: either a halt or a value, paired with
the provider calls issued (in order). -/
abbrev CRes (α : Type) := Except Halt α × List Call

instance : DecidableEq (List InstInfo × List String × Bool) := inferInstance

instance : DecidableEq (List InstInfo × List InstInfo × Option (List String) × Bool) :=
  inferInstance

instance : DecidableEq (Bool × List InstInfo × List String) := inferInstance

/-- Returns a value with no calls issued. -/
def cok (a : α) : CRes α := (.ok a, [])

/-- Halts through `fail_json` with no calls issued. -/
def cfail (m : Msg) : CRes α := (.error (.failJson m), [])

/-- Sequencing of module-function steps: a halt short-circuits, and
call traces concatenate in execution order. -/
def andThen (x : CRes α) (f : α → CRes β) : CRes β :=
  match x with
  | (.error h, cs) => (.error h, cs)
  | (.ok a, cs) =>
    let r := f a
    (r.1, cs ++ r.2)

/-- Prefixes already-issued calls onto a step's trace. -/
def withCalls (cs : List Call) (x : CRes α) : CRes α :=
  (x.1, cs ++ x.2)

/-- Python `a or b` on two optional strings: a falsy `a` (absent or
empty) falls through to `b`.  Used for the
`volume.get('device_type') or volume.get('volume_type')` idiom. -/
def pyOr (a b : Option String) : Option String :=
  match a with
  | some s => if s = "" then b else some s
  | none => b

/-- Translation of the `vpc_subnet_id` handling of `create_instances`
(lines 866-873): a truthy subnet id requires a VPC connection and
resolves the subnet to its VPC id with one `get_all_subnets` call (a
missing subnet would raise an `IndexError` on `[0]`). -/
def resolveVpcId (p : Params) (e : EC2) : CRes (Option String) :=
  if truthyStr p.vpc_subnet_id then
    if !e.hasVpc then cfail .regionMustBeSpecified
    else
      match e.subnetVpc (p.vpc_subnet_id.getD "") with
      | none => ((.error (.pyError "get_all_subnets")), [.getAllSubnets])
      | some v => ((.ok (some v)), [.getAllSubnets])
  else cok none

/-- Translation of the security-group resolution of `create_instances`
(lines 875-893): group names are resolved to ids by listing groups
(scoped to the VPC when one was selected), group ids are resolved to
names by reverse lookup; either direction issues one
`get_all_security_groups` call. -/
def resolveGroups (p : Params) (e : EC2) (vpcId : Option String) :
    CRes (Option (List String) × Option (List String)) :=
  if truthyList p.group then
    let grps : List SecGroup :=
      match vpcId with
      | some v => e.groups.filter (fun g => g.vpc == some v)
      | none => e.groups
    let names := p.group.getD []
    ((.ok (some ((grps.filter (fun g => names.contains g.name)).map SecGroup.id), p.group)),
      [.getAllSecurityGroups])
  else if truthyList p.group_id then
    let gids := p.group_id.getD []
    ((.ok (p.group_id, some ((e.groups.filter (fun g => gids.contains g.id)).map SecGroup.name))),
      [.getAllSecurityGroups])
  else cok (p.group_id, p.group)

/-- The filter dict `{'client-token': id, 'instance-state-name':
'running'}` used by the idempotency pre-flight lookup. -/
def tokenFilter (tok : String) : List (FilterKey × String) :=
  [(.clientToken, tok), (.stateName, "running")]

/-- The idempotency pre-flight query of lines 900-905: the running
instances carrying the client token. -/
def tokenMatched (e : EC2) (tok : String) : List Inst :=
  e.instances.filter (fun i => matchesFilters i (tokenFilter tok))

/-- Translation of the `boto_supports_profile_name_arg` gate (lines
931-936): an unsupported client with an instance profile name
requested is a capability failure. -/
def profileCheck (p : Params) (caps : BotoCaps) : CRes Unit :=
  if caps.profile_name then cok ()
  else if p.instance_profile_name.isSome then cfail .instanceProfileNameRequiresBoto
  else cok ()

/-- Translation of the `assign_public_ip` validation (lines 938-944):
the capability check comes first, then the requirement of a truthy
`vpc_subnet_id`. -/
def publicIpCheck (p : Params) (caps : BotoCaps) : CRes Unit :=
  if p.assign_public_ip then
    if !caps.associate_public_ip then cfail .assignPublicIpRequiresBoto
    else if !truthyStr p.vpc_subnet_id then cfail .assignPublicIpOnlyWithVpcSubnetId
    else cok ()
  else cok ()

/-- Translation of `create_block_device`: validates one volume dict in
source order — deprecated `device_type`+`volume_type`, missing size
on a fresh volume, `io1` without IOPS, the 30:1 IOPS-to-size bound
(which first fetches the snapshot with `get_all_snapshots` to obtain
the default size), encryption on a snapshot source, and
ephemeral+snapshot exclusivity. -/
def create_block_device (e : EC2) (volume : Volume) : CRes Unit :=
  if volume.device_type.isSome && volume.volume_type.isSome then cfail .deviceTypeDeprecated
  else
    let volume_type := pyOr volume.device_type volume.volume_type
    if volume.snapshot.isNone && volume.ephemeral.isNone && volume.volume_size.isNone then
      cfail .sizeMustBeSpecified
    else
      let snapPart : CRes Unit :=
        match volume.snapshot with
        | none => cok ()
        | some snapId =>
          if volume_type == some "io1" && volume.iops.isNone then cfail .io1RequiresIops
          else
            let iopsPart : CRes Unit :=
              match volume.iops with
              | none => cok ()
              | some n =>
                match e.snapshotSize snapId with
                | none => ((.error (.pyError "get_all_snapshots")), [.getAllSnapshots snapId])
                | some ssz =>
                  -- MAX_IOPS_TO_SIZE bound is 30
                  let size := volume.volume_size.getD ssz
                  if n > 30 * size then
                    ((.error (.failJson .iopsRatioExceeded)), [.getAllSnapshots snapId])
                  else ((.ok ()), [.getAllSnapshots snapId])
            andThen iopsPart fun _ =>
              if volume.encrypted.isSome then cfail .noEncryptedFromSnapshot else cok ()
      andThen snapPart fun _ =>
        if volume.ephemeral.isSome && volume.snapshot.isSome then
          cfail .cannotSetBothEphemeralAndSnapshot
        else cok ()

/-- Translation of the block-device-mapping construction (lines
979-989): each volume needs a device name, and a device is built
(hence validated) exactly when `volume_size` is absent or positive. -/
def volumesStep (p : Params) (e : EC2) : CRes Unit :=
  if truthyList p.volumes then
    (p.volumes.getD []).foldl
      (fun acc volume =>
        andThen acc fun _ =>
          if volume.device_name.isNone then cfail .deviceNameMustBeSet
          else
            match volume.volume_size with
            | none => create_block_device e volume
            | some n => if n > 0 then create_block_device e volume else cok ())
      (cok ())
  else cok ()

/-- Translation of the on-demand submission path (lines 1009-1031):
one `run_instances` call with `min == max == count_remaining`, then
the unbounded existence-check retry loop, then the idempotent-retry
artifact check for instances already terminated.  The retry loop has
no sleep, so with a time-indexed oracle a `NotFound` response repeats
forever: it is modelled as the `hang` halt. -/
def onDemandSubmit (e : EC2) (rem : Int) : CRes (List String × List Inst) :=
  match e.runInstances rem with
  | .error code => ((.error (.failJson (.instanceCreationFailed code))), [.runInstances rem])
  | .ok created =>
    let instids := created.map Inst.id
    match e.pollInstances 0 instids with
    | .notFound => ((.error .hang), [.runInstances rem, .getAllInstances])
    | .err code => ((.error (.failJson (.pollError code))), [.runInstances rem, .getAllInstances])
    | .res _ =>
      let terminated := (created.filter (fun i => i.state == "terminated")).map Inst.id
      if !terminated.isEmpty then
        ((.error (.failJson (.instancesTerminatedPreviously terminated))),
          [.runInstances rem, .getAllInstances])
      else ((.ok (instids, created)), [.runInstances rem, .getAllInstances])

/-- The last spot request in `reqs` matching `sirb` that has an
assigned instance id (later list entries overwrite earlier ones,
like the Python inner `for sir in reqs` loop). -/
def lastMatch (reqs : List SpotReq) (sirb : String) : Option String :=
  reqs.foldl
    (fun cur sir => if sir.id == sirb && sir.instance_id.isSome then sir.instance_id else cur)
    none

/-- One pass of the spot-poll body over the submitted request ids:
requests already assigned are skipped, fresh assignments are appended
in submission order (Python dict insertion order). -/
def assignOnce (reqs : List SpotReq) (assigned : List (String × String))
    (resIds : List String) : List (String × String) :=
  resIds.foldl
    (fun acc sirb =>
      if (acc.lookup sirb).isSome then acc
      else
        match lastMatch reqs sirb with
        | some iid => acc ++ [(sirb, iid)]
        | none => acc)
    assigned

/-- Result of the spot-assignment polling loop: the accumulated
request-to-instance assignment, the clock on exit, and the calls
issued. -/
structure SpotLoopRes where
  assigned : List (String × String)
  now : Nat
  calls : List Call
deriving DecidableEq, Repr

/-- Translation of the spot-assignment polling loop (lines
1051-1064): while the deadline has not passed, poll all spot
requests, collect assignments, and sleep 5 seconds while fewer than
`count` are assigned.  Structural recursion on fuel; every iteration
advances the clock by 5, so fuel `deadline - now + 1` is never
exhausted. -/
def spotWaitLoop (e : EC2) (resIds : List String) (count : Int) (deadline : Nat) :
    Nat → Nat → List (String × String) → SpotLoopRes
  | 0, now, assigned => ⟨assigned, now, []⟩
  | fuel + 1, now, assigned =>
    if deadline ≤ now then ⟨assigned, now, []⟩
    else
      let assigned' := assignOnce (e.spotRequests now) assigned resIds
      if (assigned'.length : Int) < count then
        let r := spotWaitLoop e resIds count deadline fuel (now + 5) assigned'
        ⟨r.assigned, r.now, Call.getAllSpotRequests :: r.calls⟩
      else ⟨assigned', now, [Call.getAllSpotRequests]⟩

/-- Translation of the spot submission path (lines 1033-1067):
`private_ip` is invalid with spot pricing, the placement-group
capability is gated, the bid is submitted, and — only if waiting was
requested — the assignment poll runs and `instids` is defined.
Returns the (possibly undefined) `instids` local and the clock. -/
def spotSubmit (p : Params) (caps : BotoCaps) (e : EC2) (rem count : Int) :
    CRes (Option (List String) × Nat) :=
  if truthyStr p.private_ip then cfail .privateIpOnlyOnDemand
  else
    let pg : CRes Unit :=
      if caps.spot_placement_group then cok ()
      else if truthyStr p.placement_group then cfail .placementGroupRequiresBoto
      else cok ()
    andThen pg fun _ =>
      match e.requestSpot rem with
      | .error code =>
        ((.error (.failJson (.instanceCreationFailed code))), [.requestSpotInstances rem])
      | .ok reqIds =>
        if p.wait then
          let deadline := p.spot_wait_timeout
          let r := spotWaitLoop e reqIds count deadline (deadline + 1) 0 []
          if deadline ≤ r.now then
            ((.error (.failJson (.waitForSpotRequestsTimeout r.now))),
              .requestSpotInstances rem :: r.calls)
          else
            ((.ok (some (r.assigned.map Prod.snd), r.now)), .requestSpotInstances rem :: r.calls)
        else ((.ok (none, 0)), [.requestSpotInstances rem])

/-- Number of running instances across a reservation list, as counted
by lines 1084-1086. -/
def countRunningIn (L : List (List Inst)) : Nat :=
  (L.map (fun r => (r.filter (fun i => i.state == "running")).length)).sum

/-- Result of the instances-running polling loop: either an uncaught
re-raised provider error, or normal exit carrying the clock, the last
`num_running`, the last assigned `res_list` (absent when the loop
body never completed a query), and the calls issued. -/
inductive RunLoopRes where
  | raised (calls : List Call)
  | done (now numRunning : Nat) (lastRes : Option (List (List Inst))) (calls : List Call)
deriving DecidableEq, Repr

/-- Prefixes the `get_all_instances` call of one loop iteration. -/
def RunLoopRes.addCall : RunLoopRes → RunLoopRes
  | .raised cs => .raised (Call.getAllInstances :: cs)
  | .done a b c cs => .done a b c (Call.getAllInstances :: cs)

/-- Translation of the instances-running polling loop (lines
1074-1095): while the deadline has not passed and fewer than
`len(instids)` are running, query; a `NotFound` error sleeps 1 and
retries, any other error is re-raised, an empty reservation list
sleeps 1 and retries, and otherwise the loop sleeps 5 when waiting
was requested and not everything is running, else breaks.  Structural
recursion on fuel; every iteration advances the clock by at least 1,
so fuel `deadline - now + 1` is never exhausted. -/
def runningWaitLoop (e : EC2) (wait : Bool) (instids : List String) (deadline : Nat) :
    Nat → Nat → Nat → Option (List (List Inst)) → RunLoopRes
  | 0, now, numRunning, lastRes => .done now numRunning lastRes []
  | fuel + 1, now, numRunning, lastRes =>
    if deadline ≤ now || instids.length ≤ numRunning then .done now numRunning lastRes []
    else
      match e.pollInstances now instids with
      | .notFound =>
        (runningWaitLoop e wait instids deadline fuel (now + 1) numRunning lastRes).addCall
      | .err _ => .raised [.getAllInstances]
      | .res L =>
        let nr := countRunningIn L
        if L.isEmpty then
          (runningWaitLoop e wait instids deadline fuel (now + 1) nr (some L)).addCall
        else if wait && nr < instids.length then
          (runningWaitLoop e wait instids deadline fuel (now + 5) nr (some L)).addCall
        else .done now nr (some L) [.getAllInstances]

/-- The leftover `res` binding used by the attribute passes at lines
1106-1113: the last reservation of `res_list`, falling back to the
submission result when the loop produced an empty list — for a spot
submission that object is a request list with no `.instances`
attribute, a Python-level error. -/
def resAttrOf (L : List (List Inst)) (fallback : Option (List Inst)) :
    Except Halt (List Inst) :=
  match L.getLast? with
  | some r => .ok r
  | none =>
    match fallback with
    | some created => .ok created
    | none => .error (.pyError "res.instances")

/-- One best-effort attribute pass (lines 1106-1113): when the flag
requires a non-default value, issue one `modify_attribute` call per
instance of the leftover `res` binding. -/
def attrStep (flag : Bool) (resAttr : Except Halt (List Inst)) : CRes Unit :=
  if flag then
    match resAttr with
    | .error h => (.error h, [])
    | .ok insts => ((.ok ()), insts.map (fun i => .modifyAttribute i.id))
  else cok ()

/-- The batched tagging call of lines 1116-1120: issued only for a
truthy tag mapping; a provider error is fatal. -/
def tagStep (p : Params) (e : EC2) : CRes Unit :=
  if truthyList p.instance_tags then
    match e.createTagsErr with
    | some code => ((.error (.failJson (.instanceTaggingFailed code))), [.createTags])
    | none => ((.ok ()), [.createTags])
  else cok ()

/-- Translation of lines 1097-1130 after the running-wait loop: the
wait-timeout failure, the `for res in res_list` extension of
`running_instances` (a `NameError` when the loop never assigned
`res_list`), the best-effort attribute modifications, the batched
tagging call, and the final per-instance `update()` plus info
projection. -/
def afterLoop (p : Params) (e : EC2) (fallback : Option (List Inst)) (running0 : List Inst)
    (deadline now1 : Nat) (lastRes : Option (List (List Inst))) :
    CRes (List InstInfo × List String × Bool) :=
  if p.wait && decide (deadline ≤ now1) then cfail (.waitForInstancesRunningTimeout now1)
  else
    match lastRes with
    | none => (.error (.nameError "res_list"), [])
    | some L =>
      let running_instances := running0 ++ L.flatten
      andThen (attrStep (!p.source_dest_check) (resAttrOf L fallback)) fun _ =>
      andThen (attrStep p.termination_protection (resAttrOf L fallback)) fun _ =>
      andThen (tagStep p e) fun _ =>
        let updated :=
          running_instances.map (fun i => (e.instances.find? (fun j => j.id == i.id)).getD i)
        ((.ok (updated.map get_instance_info, updated.map Inst.id, true)),
          running_instances.map (fun i => Call.instanceUpdate i.id))

/-- Translation of lines 1071-1130: computes the wait deadline, and —
mirroring Python's left-to-right evaluation of the `while` condition —
touches `instids` only when the deadline test passes (a spot
submission without waiting leaves `instids` undefined, which is a
`NameError` here). -/
def postSubmit (p : Params) (e : EC2) (instidsOpt : Option (List String))
    (fallback : Option (List Inst)) (running0 : List Inst) (now0 : Nat) :
    CRes (List InstInfo × List String × Bool) :=
  let deadline := now0 + p.wait_timeout
  if now0 < deadline then
    match instidsOpt with
    | none => (.error (.nameError "instids"), [])
    | some instids =>
      match runningWaitLoop e p.wait instids deadline (deadline - now0 + 1) now0 0 none with
      | .raised cs => (.error .raised, cs)
      | .done now1 _ lastRes cs =>
        withCalls cs (afterLoop p e fallback running0 deadline now1 lastRes)
  else afterLoop p e fallback running0 deadline now0 none

/-- Translation of `create_instances`: the mutual-exclusion check for
`group`/`group_id`, VPC and security-group resolution, the
idempotency-token pre-flight lookup and its `count_remaining == 0`
short-circuit (no creation call, `changed = False`), the capability
and cross-field validations, block-device construction, the
on-demand or spot submission, and the post-submission wait /
attribute / tagging phase.  `override_count` models the keyword
argument used by `enforce_count` (with Python truthiness: an
override of 0 falls back to the `count` parameter). -/
def create_instances (p : Params) (caps : BotoCaps) (e : EC2)
    (override_count : Option Int := none) : CRes (List InstInfo × List String × Bool) :=
  let count : Int :=
    match override_count with
    | some oc => if oc == 0 then p.count else oc
    | none => p.count
  if truthyList p.group_id && truthyList p.group then cfail .useOnlyOneTypeOfParameter
  else
  andThen (resolveVpcId p e) fun vpcId =>
  andThen (resolveGroups p e vpcId) fun _groupRes =>
  let tokenStep : CRes (List Inst) :=
    match p.id with
    | none => cok []
    | some tok => ((.ok (tokenMatched e tok)), [.getAllInstances])
  andThen tokenStep fun running0 =>
  let count_remaining : Int := count - running0.length
  if count_remaining == 0 then
    let updated := running0.map (fun i => (e.instances.find? (fun j => j.id == i.id)).getD i)
    ((.ok (updated.map get_instance_info, updated.map Inst.id, false)),
      running0.map (fun i => Call.instanceUpdate i.id))
  else
  andThen (profileCheck p caps) fun _ =>
  andThen (publicIpCheck p caps) fun _ =>
  andThen (volumesStep p e) fun _ =>
  if !truthyStr p.spot_price then
    andThen (onDemandSubmit e count_remaining) fun pr =>
      postSubmit p e (some pr.1) (some pr.2) running0 0
  else
    andThen (spotSubmit p caps e count_remaining count) fun pr =>
      postSubmit p e pr.1 none running0 pr.2

/-- Sets an instance's state to `terminated`, modelling the effect of
a provider terminate call on the provider state read by later polls. -/
def markTerminated (insts : List Inst) (iid : String) : List Inst :=
  insts.map (fun i => if i.id == iid then { i with state := "terminated" } else i)

/-- The state test of line 1163: an instance is terminated only when
currently `running` or `stopped`. -/
def terminable (i : Inst) : Bool :=
  i.state == "running" || i.state == "stopped"

/-- Translation of the per-instance loop of `terminate_instances`
(lines 1161-1170): instances in `running` or `stopped` state are
recorded (pre-termination snapshot) and terminated one call each; a
provider error aborts; all other matched instances are skipped.
Threads the mutated provider state for the later polls. -/
def terminateEach (e : EC2) (post : List Inst) (termIds : List String)
    (arr : List InstInfo) (changed : Bool) :
    List Inst → Except Halt (List Inst × List String × List InstInfo × Bool) × List Call
  | [] => ((.ok (post, termIds, arr, changed)), [])
  | inst :: rest =>
    if terminable inst then
      match e.terminateErr inst.id with
      | some _ => ((.error (.failJson (.unableToTerminate inst.id))), [.terminateCall [inst.id]])
      | none =>
        withCalls [.terminateCall [inst.id]]
          (terminateEach e (markTerminated post inst.id) (termIds ++ [inst.id])
            (arr ++ [get_instance_info inst]) true rest)
    else terminateEach e post termIds arr changed rest

/-- Translation of the termination polling loop (lines 1174-1189):
re-reads the terminated-filtered matches of the terminated ids (the
single-reservation model of `response.pop().instances`: an empty
response raises, is caught, sleeps 1 and retries); sleeps 5 while the
count is short.  Returns clock, final count and calls. -/
def termWaitLoop (post : List Inst) (termIds : List String) (deadline : Nat) :
    Nat → Nat → Nat → Nat × Nat × List Call
  | 0, now, num => (now, num, [])
  | fuel + 1, now, num =>
    if deadline ≤ now || termIds.length ≤ num then (now, num, [])
    else
      let ms := post.filter (fun i => termIds.contains i.id && i.state == "terminated")
      if ms.isEmpty then
        let r := termWaitLoop post termIds deadline fuel (now + 1) num
        (r.1, r.2.1, Call.getAllInstances :: r.2.2)
      else if ms.length < termIds.length then
        let r := termWaitLoop post termIds deadline fuel (now + 5) ms.length
        (r.1, r.2.1, Call.getAllInstances :: r.2.2)
      else (now, ms.length, [Call.getAllInstances])

/-- Translation of `terminate_instances`: the non-empty input
validation, the terminate pass over matching instances, and — when
waiting was requested — the termination poll, the strict-inequality
timeout check, and the issue600 re-read that REPLACES the result
records with the post-termination state (the re-read passes the
terminated id list to the provider; boto sends no id constraint when
that list is empty, so all terminated instances match). -/
def terminate_instances (p : Params) (e : EC2) (instance_ids : List String) :
    CRes (Bool × List InstInfo × List String) :=
  if instance_ids.isEmpty then cfail .instanceIdsShouldBeList
  else
    let matching := e.instances.filter (fun i => instance_ids.contains i.id)
    andThen (withCalls [Call.getAllInstances] (terminateEach e e.instances [] [] false matching))
      fun r =>
      let post := r.1
      let termIds := r.2.1
      let arr := r.2.2.1
      let changed := r.2.2.2
      if p.wait then
        let deadline := p.wait_timeout
        let lr := termWaitLoop post termIds deadline (deadline + 1) 0 0
        if deadline < lr.1 && lr.2.1 < termIds.length then
          ((.error (.failJson (.waitForInstanceTerminationTimeout lr.1))), lr.2.2)
        else
          let records :=
            (post.filter (fun i =>
              (termIds.isEmpty || termIds.contains i.id) && i.state == "terminated")).map
              get_instance_info
          ((.ok (changed, records, termIds)), lr.2.2 ++ [Call.getAllInstances])
      else cok (changed, arr, termIds)

/-- Translation of `find_running_instances_by_count_tag`: the
tag-filtered, running-state, optionally zone-scoped instance query,
flattened across reservations. -/
def find_running_instances_by_count_tag (e : EC2) (count_tag : Option TagsSpec)
    (zone : Option String) : List Inst :=
  e.instances.filter (fun i =>
    matchesFilters i (get_reservations_filters count_tag (some "running") zone))

/-- Translation of `enforce_count`: the pre-flight `count_tag`
requirement (with Python truthiness of `exact_count`), the running
count read, and the three reconciliation branches — equal (no
change), below target (delegate the deficit to `create_instances`),
above target (sort all matched identifiers, remove the
lowest-sorted, delegate to `terminate_instances`, and restate the
terminated records' state).  A `None` exact count (unreachable from
`main`) would crash Python 2 at the `len - None` subtraction and is
modelled as a Python-level error. -/
def enforce_count (p : Params) (caps : BotoCaps) (e : EC2) :
    CRes (List InstInfo × List InstInfo × Option (List String) × Bool) :=
  if truthyInt p.exact_count && p.count_tag.isNone then cfail .countTagRequired
  else
    let instances := find_running_instances_by_count_tag e p.count_tag p.zone
    withCalls [Call.getAllInstances]
      (match p.exact_count with
      | none => (.error (.pyError "exact_count"), [])
      | some T =>
        if (instances.length : Int) == T then
          cok (instances.map get_instance_info, [], none, false)
        else if (instances.length : Int) < T then
          let to_create := T - instances.length
          andThen (create_instances p caps e (some to_create)) fun r =>
            cok (instances.map get_instance_info ++ r.1, r.1, some r.2.1, r.2.2)
        else
          let to_remove := ((instances.length : Int) - T).toNat
          let all_instance_ids := List.insertionSort (· ≤ ·) (instances.map Inst.id)
          let remove_ids := all_instance_ids.take to_remove
          let kept := instances.filter (fun x => !(remove_ids.contains x.id))
          andThen (terminate_instances p e remove_ids) fun r =>
            cok (kept.map get_instance_info,
              r.2.1.map (fun d => { d with state := "terminated" }),
              some r.2.2, r.1))

/-- Test fixture: the spec's count-reconciliation scenario — five
running instances tagged `env=web`, listed in the provider order
i-5, i-1, i-4, i-2, i-3. -/
def scenarioInstances : List Inst :=
  ["i-5", "i-1", "i-4", "i-2", "i-3"].map
    (fun i => { id := i, state := "running", tags := [("env", "web")] })

/-! Shared helper lemmas about the sequencing combinators and the
instance-update projection. -/

theorem updInst_id (e : EC2) (i : Inst) :
    ((e.instances.find? (fun j => j.id == i.id)).getD i).id = i.id := by
  cases h : e.instances.find? (fun j => j.id == i.id) with
  | none => rfl
  | some j => simpa using List.find?_some h

theorem andThen_cok (a : α) (f : α → CRes β) : andThen (cok a) f = f a := by
  simp [andThen, cok]

theorem andThen_ok (a : α) (cs : List Call) (f : α → CRes β) :
    andThen ((.ok a), cs) f = ((f a).1, cs ++ (f a).2) := rfl

theorem andThen_error (h : Halt) (cs : List Call) (f : α → CRes β) :
    andThen ((.error h), cs) f = ((.error h), cs) := rfl

theorem andThen_cfail (m : Msg) (f : α → CRes β) : andThen (cfail m) f = cfail m := rfl

/-!
Claim C3.  The three tag-filter shapes and the equivalence of the
translated predicates.
-/

/-- C3 counterexample: the list shape `["foo"]` translates to a
`tag-key` (key-existence) clause while the mapping shape
`{"foo": None}` translates to a `tag:foo = ""` (key equals empty
value) clause, and on an instance whose `foo` tag has the non-empty
value `"bar"` the two translated predicates disagree — so the claim
that all shapes with the same semantic intent match the same instance
set is false. -/
theorem C3_counterexample :
    get_reservations_filters (some (.list [.str "foo"])) none none = [(.tagKey, "foo")] ∧
    get_reservations_filters (some (.dict [("foo", none)])) none none = [(.tag "foo", "")] ∧
    matchesFilters { id := "i-1", state := "running", tags := [("foo", "bar")] }
      (get_reservations_filters (some (.list [.str "foo"])) none none) = true ∧
    matchesFilters { id := "i-1", state := "running", tags := [("foo", "bar")] }
      (get_reservations_filters (some (.dict [("foo", none)])) none none) = false := by
  decide

/-- C3 amended: the scalar shape and the singleton list shape
translate to the same filter dict (likewise a mapping and the list
containing that mapping), but a mapping entry with a `None` value
translates to a key=empty-string predicate, which matches exactly the
instances whose tag carries the empty value — not a key-existence
predicate. -/
theorem C3_amended :
    (∀ k : String,
      get_reservations_filters (some (.str k)) none none =
        get_reservations_filters (some (.list [.str k])) none none) ∧
    (∀ d : List (String × Option String),
      get_reservations_filters (some (.dict d)) none none =
        get_reservations_filters (some (.list [.dict d])) none none) ∧
    (∀ (k : String) (i : Inst),
      matchesFilters i (get_reservations_filters (some (.dict [(k, none)])) none none) =
        (i.tags.lookup k == some "")) := by
  refine ⟨fun k => rfl, fun d => rfl, fun k i => ?_⟩
  simp [get_reservations_filters, _set_none_to_blank, updateFilter, matchesFilters,
    matchesClause, List.all]

/-- C3 witness: the amended equivalences evaluated on the `foo`
shapes and an instance carrying an empty-valued `foo` tag. -/
theorem C3_witness :
    get_reservations_filters (some (.str "foo")) none none =
      get_reservations_filters (some (.list [.str "foo"])) none none ∧
    matchesFilters { id := "i-2", state := "running", tags := [("foo", "")] }
      (get_reservations_filters (some (.dict [("foo", none)])) none none) =
      (([("foo", "")] : List (String × String)).lookup "foo" == some "") :=
  ⟨C3_amended.1 "foo",
   C3_amended.2.2 "foo" { id := "i-2", state := "running", tags := [("foo", "")] }⟩

/-!
Claim C5.  Exact-count enforcement without a tag filter.
-/

/-- C5 counterexample: with target count 0 and no `count_tag`, Python
truthiness of `exact_count` skips the guard, so the operation is NOT
rejected and provider state IS read (and the matched instances are
then terminated down to zero). -/
theorem C5_counterexample :
    (enforce_count { exact_count := some 0 } {}
        { instances := [{ id := "i-1", state := "running" }] }).1 ≠
      .error (.failJson .countTagRequired) ∧
    Call.getAllInstances ∈
      (enforce_count { exact_count := some 0 } {}
        { instances := [{ id := "i-1", state := "running" }] }).2 ∧
    (enforce_count { exact_count := some 0 } {}
        { instances := [{ id := "i-1", state := "running" }] }).1 =
      .ok ([], [{ id := "i-1", state := "terminated" }], some ["i-1"], true) := by
  decide

/-- C5 amended: for every NONZERO target count, exact-count
enforcement without a tag filter fails pre-flight with the
`count_tag` requirement, before any provider call. -/
theorem C5_amended (p : Params) (caps : BotoCaps) (e : EC2) (n : Int)
    (hx : p.exact_count = some n) (hn : n ≠ 0) (hct : p.count_tag = none) :
    enforce_count p caps e = (.error (.failJson .countTagRequired), []) := by
  simp [enforce_count, hx, hct, truthyInt, hn, cfail]

/-- C5 witness: the amended rejection at target count 3. -/
theorem C5_witness :
    ((3 : Int) ≠ 0) ∧
    enforce_count { exact_count := some 3 } {} {} =
      (.error (.failJson .countTagRequired), []) :=
  ⟨by decide, C5_amended { exact_count := some 3 } {} {} 3 rfl (by decide) rfl⟩

/-!
Claim C4.  The four validation rejections of the Request Builder.
-/

/-- C4 counterexample: (a) the snapshot-sourced `io1` device with
IOPS above 30 times the size IS rejected, but only AFTER issuing the
`get_all_snapshots` provider call that fetches the snapshot — so
"without issuing any provider call" is false as stated; (b) moreover,
when the idempotency token already satisfies the requested count, the
same invalid block device produces no failure at all (the creation
path is never reached). -/
theorem C4_counterexample :
    create_instances
      { volumes := some [{ device_name := some "/dev/xvdb", volume_type := some "io1",
                           snapshot := some "snap-1", volume_size := some 10,
                           iops := some 400 }] }
      {} { snapshotSize := fun _ => some 10 } =
      (.error (.failJson .iopsRatioExceeded), [.getAllSnapshots "snap-1"]) ∧
    (create_instances
      { volumes := some [{ device_name := some "/dev/xvdb", volume_type := some "io1",
                           snapshot := some "snap-1", volume_size := some 10,
                           iops := some 400 }],
        id := some "tok", count := 1 }
      {} { instances := [{ id := "i-a", state := "running", clientToken := some "tok" }],
           snapshotSize := fun _ => some 10 }).1 =
      .ok ([{ id := "i-a", state := "running" }], ["i-a"], false) := by
  decide

/-- C4 amended: each of the four combinations is rejected with a
validation failure before any creation call; with no other
provider-triggering parameters set, the `group`+`group_id`,
`assign_public_ip`-without-subnet and ephemeral+snapshot rejections
issue no provider call at all, while the IOPS-ratio rejection first
issues exactly the read-only snapshot lookup used to determine the
size.  The block-device rejections presuppose that the creation path
is reached (nonzero remaining count) and that the device is actually
constructed. -/
theorem C4_amended :
    (∀ (p : Params) (caps : BotoCaps) (e : EC2),
      truthyList p.group = true → truthyList p.group_id = true →
      create_instances p caps e = (.error (.failJson .useOnlyOneTypeOfParameter), [])) ∧
    (∀ (p : Params) (caps : BotoCaps) (e : EC2),
      p.assign_public_ip = true → p.vpc_subnet_id = none →
      p.group = none → p.group_id = none → p.id = none → p.count ≠ 0 →
      caps.profile_name = true → caps.associate_public_ip = true →
      create_instances p caps e =
        (.error (.failJson .assignPublicIpOnlyWithVpcSubnetId), [])) ∧
    (∀ (p : Params) (caps : BotoCaps) (e : EC2) (v : Volume) (dn s eph : String),
      p.group = none → p.group_id = none → p.id = none → p.count ≠ 0 →
      caps.profile_name = true → p.assign_public_ip = false → p.vpc_subnet_id = none →
      p.volumes = some [v] → v.device_name = some dn → v.device_type = none →
      v.volume_type = none → v.iops = none → v.encrypted = none →
      v.snapshot = some s → v.ephemeral = some eph → v.volume_size = none →
      create_instances p caps e =
        (.error (.failJson .cannotSetBothEphemeralAndSnapshot), [])) ∧
    (∀ (p : Params) (caps : BotoCaps) (e : EC2) (v : Volume) (dn s : String)
        (n sz ssz : Int),
      p.group = none → p.group_id = none → p.id = none → p.count ≠ 0 →
      caps.profile_name = true → p.assign_public_ip = false → p.vpc_subnet_id = none →
      p.volumes = some [v] → v.device_name = some dn → v.device_type = none →
      v.volume_type = some "io1" → v.snapshot = some s → v.iops = some n →
      v.volume_size = some sz → 0 < sz → e.snapshotSize s = some ssz →
      n > 30 * sz →
      create_instances p caps e =
        (.error (.failJson .iopsRatioExceeded), [.getAllSnapshots s])) := by
  refine ⟨?_, ?_, ?_, ?_⟩
  · intro p caps e h1 h2
    simp [create_instances, h1, h2, cfail]
  · intro p caps e h1 h2 h3 h4 h5 h6 h7 h8
    simp [create_instances, resolveVpcId, resolveGroups, profileCheck, publicIpCheck,
      truthyStr, truthyList, h1, h2, h3, h4, h5, h6, h7, h8,
      andThen_cok, andThen_cfail, cok, cfail, andThen]
  · intro p caps e v dn s eph h1 h2 h3 h4 h5 h6 h7 h8 h9 h10 h11 h12 h13 h14 h15 h16
    simp [create_instances, resolveVpcId, resolveGroups, profileCheck, publicIpCheck,
      volumesStep, create_block_device, pyOr, truthyStr, truthyList,
      h1, h2, h3, h4, h5, h6, h7, h8, h9, h10, h11, h12, h13, h14, h15, h16,
      andThen_cok, andThen_cfail, cok, cfail, andThen]
  · intro p caps e v dn s n sz ssz h1 h2 h3 h4 h5 h6 h7 h8 h9 h10 h11 h12 h13 h14 h15 h16 h17
    simp [create_instances, resolveVpcId, resolveGroups, profileCheck, publicIpCheck,
      volumesStep, create_block_device, pyOr, truthyStr, truthyList,
      h1, h2, h3, h4, h5, h6, h7, h8, h9, h10, h11, h12, h13, h14, h15, h16, h17,
      andThen_cok, andThen_cfail, cok, cfail, andThen]

/-- C4 witness: the four amended rejections evaluated on concrete
parameter sets. -/
theorem C4_witness :
    create_instances { group := some ["g"], group_id := some ["gid"] } {} {} =
      (.error (.failJson .useOnlyOneTypeOfParameter), []) ∧
    create_instances { assign_public_ip := true } {} {} =
      (.error (.failJson .assignPublicIpOnlyWithVpcSubnetId), []) ∧
    create_instances
      { volumes := some [{ device_name := some "/dev/xvdc", snapshot := some "snap-2",
                           ephemeral := some "ephemeral0" }] } {} {} =
      (.error (.failJson .cannotSetBothEphemeralAndSnapshot), []) ∧
    create_instances
      { volumes := some [{ device_name := some "/dev/xvdb", volume_type := some "io1",
                           snapshot := some "snap-1", volume_size := some 10,
                           iops := some 400 }] }
      {} { snapshotSize := fun _ => some 20 } =
      (.error (.failJson .iopsRatioExceeded), [.getAllSnapshots "snap-1"]) := by
  refine ⟨?_, ?_, ?_, ?_⟩
  · exact C4_amended.1 { group := some ["g"], group_id := some ["gid"] } {} {}
      (by decide) (by decide)
  · exact C4_amended.2.1 { assign_public_ip := true } {} {} rfl rfl rfl rfl rfl
      (by decide) rfl rfl
  · exact C4_amended.2.2.1
      { volumes := some [{ device_name := some "/dev/xvdc", snapshot := some "snap-2",
                           ephemeral := some "ephemeral0" }] } {} {}
      { device_name := some "/dev/xvdc", snapshot := some "snap-2",
        ephemeral := some "ephemeral0" } "/dev/xvdc" "snap-2" "ephemeral0"
      rfl rfl rfl (by decide) rfl rfl rfl rfl rfl rfl rfl rfl rfl rfl rfl rfl
  · exact C4_amended.2.2.2
      { volumes := some [{ device_name := some "/dev/xvdb", volume_type := some "io1",
                           snapshot := some "snap-1", volume_size := some 10,
                           iops := some 400 }] }
      {} { snapshotSize := fun _ => some 20 }
      { device_name := some "/dev/xvdb", volume_type := some "io1",
        snapshot := some "snap-1", volume_size := some 10, iops := some 400 }
      "/dev/xvdb" "snap-1" 400 10 20
      rfl rfl rfl (by decide) rfl rfl rfl rfl rfl rfl rfl rfl rfl rfl (by decide) rfl
      (by decide)

/-!
Claim C2.  The idempotency-token pre-flight and its short-circuit.
-/

/-- C2 counterexample: when the token-matched running count EXCEEDS
the requested count (2 matched, 1 requested), `count_remaining` is
-1, not 0, so the short-circuit is skipped: a creation call IS issued
(with min = max = -1, which the provider rejects) and the operation
does not report `changed=false`. -/
theorem C2_counterexample :
    ((tokenMatched
        { instances := [{ id := "i-a", state := "running", clientToken := some "tok" },
                        { id := "i-b", state := "running", clientToken := some "tok" }],
          runInstances := fun _ => .error "InvalidParameterValue" } "tok").length : Int) >
      (1 : Int) ∧
    create_instances { id := some "tok", count := 1 } {}
      { instances := [{ id := "i-a", state := "running", clientToken := some "tok" },
                      { id := "i-b", state := "running", clientToken := some "tok" }],
        runInstances := fun _ => .error "InvalidParameterValue" } =
      (.error (.failJson (.instanceCreationFailed "InvalidParameterValue")),
        [.getAllInstances, .runInstances (-1)]) := by
  decide

/-- C2 amended: when the token-matched running count EQUALS the
requested count, no creation call is made and the operation reports
`changed=false` with exactly the token-matched instance identifiers —
so a second invocation with the same token and count, observing the
state a successful first invocation established, reports
`changed=false` and the same identifier set. -/
theorem C2_amended (p : Params) (caps : BotoCaps) (e : EC2) (tok : String)
    (hid : p.id = some tok) (hg : p.group = none) (hgid : p.group_id = none)
    (hvpc : p.vpc_subnet_id = none)
    (hcount : ((tokenMatched e tok).length : Int) = p.count) :
    (∃ arr, create_instances p caps e =
      ((.ok (arr, (tokenMatched e tok).map Inst.id, false)),
        Call.getAllInstances :: (tokenMatched e tok).map (fun i => Call.instanceUpdate i.id))) ∧
    ∀ c ∈ (create_instances p caps e).2, c.isCreate = false := by
  have hrun : create_instances p caps e =
      ((.ok (((tokenMatched e tok).map
          (fun i => (e.instances.find? (fun j => j.id == i.id)).getD i)).map get_instance_info,
        (tokenMatched e tok).map Inst.id, false)),
        Call.getAllInstances :: (tokenMatched e tok).map (fun i => Call.instanceUpdate i.id)) := by
    simp [create_instances, resolveVpcId, resolveGroups, truthyStr, truthyList,
      hid, hg, hgid, hvpc, andThen_cok, andThen, cok, ← hcount, List.map_map]
    intro i _
    exact updInst_id e i
  refine ⟨⟨_, hrun⟩, ?_⟩
  intro c hc
  rw [hrun] at hc
  simp only [List.mem_cons, List.mem_map] at hc
  rcases hc with rfl | ⟨i, _, rfl⟩ <;> rfl

/-- C2 witness: a second invocation observing two running
token-matched instances with requested count 2 reports
`changed=false`, the identifiers of exactly those instances, and no
creation call. -/
theorem C2_witness :
    (∃ arr, create_instances { id := some "tok", count := 2 } {}
      { instances := [{ id := "i-a", state := "running", clientToken := some "tok" },
                      { id := "i-b", state := "running", clientToken := some "tok" }] } =
      ((.ok (arr, ["i-a", "i-b"], false)),
        [.getAllInstances, .instanceUpdate "i-a", .instanceUpdate "i-b"])) ∧
    ∀ c ∈ (create_instances { id := some "tok", count := 2 } {}
      { instances := [{ id := "i-a", state := "running", clientToken := some "tok" },
                      { id := "i-b", state := "running", clientToken := some "tok" }] }).2,
      c.isCreate = false := by
  have h := C2_amended { id := some "tok", count := 2 } {}
    { instances := [{ id := "i-a", state := "running", clientToken := some "tok" },
                    { id := "i-b", state := "running", clientToken := some "tok" }] }
    "tok" rfl rfl rfl rfl (by decide)
  exact ⟨by simpa using h.1, h.2⟩

/-!
Claim C10.  Language-level totality of `create_instances`; the
spot-without-wait path.
-/

/-- C10: the claim is false of the code — on the spot path with
waiting not requested, `instids` is assigned only inside the
`if wait:` block, so the post-submission polling condition
`num_running < len(instids)` reads an undefined local and the
function exits with a Python `NameError`, not through the module
failure channel and not with a result. -/
theorem C10_theorem (p : Params) (caps : BotoCaps) (e : EC2) (sids : List String)
    (sp : String) (hspot : p.spot_price = some sp) (hsp : sp ≠ "")
    (hwait : p.wait = false) (hpriv : p.private_ip = none)
    (hpg : caps.spot_placement_group = true)
    (hg : p.group = none) (hgid : p.group_id = none) (hvpc : p.vpc_subnet_id = none)
    (hid : p.id = none) (hcount : p.count ≠ 0) (hprof : caps.profile_name = true)
    (hpub : p.assign_public_ip = false) (hvol : p.volumes = none)
    (hsub : e.requestSpot p.count = Except.ok sids) (hwt : 1 ≤ p.wait_timeout) :
    (create_instances p caps e).1 = .error (.nameError "instids") := by
  simp [create_instances, resolveVpcId, resolveGroups, profileCheck, publicIpCheck,
    volumesStep, spotSubmit, postSubmit, truthyStr, truthyList,
    hspot, hsp, hwait, hpriv, hpg, hg, hgid, hvpc, hid, hcount, hprof, hpub, hvol, hsub,
    andThen_cok, andThen_cfail, cok, cfail, andThen]
  rw [if_pos (show 0 < p.wait_timeout by omega)]

/-- C10 witness: the spot-no-wait `NameError` on a concrete
parameter set. -/
theorem C10_witness :
    (create_instances { spot_price := some "0.10", wait := false } {}
      { requestSpot := fun _ => .ok ["sir-1"] }).1 = .error (.nameError "instids") :=
  C10_theorem { spot_price := some "0.10", wait := false } {}
    { requestSpot := fun _ => .ok ["sir-1"] } ["sir-1"] "0.10" rfl (by decide) rfl rfl
    rfl rfl rfl rfl rfl (by decide) rfl rfl rfl rfl (by decide)

/-! Shared lemmas about the terminate pass and the termination poll. -/

theorem terminateEach_spec (e : EC2) (hterm : ∀ i, e.terminateErr i = none) :
    ∀ (l post : List Inst) (termIds : List String) (arr : List InstInfo) (ch : Bool),
      ∃ post',
        terminateEach e post termIds arr ch l =
          ((.ok (post', termIds ++ (l.filter terminable).map Inst.id,
                 arr ++ (l.filter terminable).map get_instance_info,
                 ch || !(l.filter terminable).isEmpty)),
            (l.filter terminable).map (fun i => Call.terminateCall [i.id])) := by
  intro l
  induction l with
  | nil =>
    intro post termIds arr ch
    exact ⟨post, by simp [terminateEach]⟩
  | cons inst rest ih =>
    intro post termIds arr ch
    by_cases h : terminable inst
    · obtain ⟨post', hp⟩ := ih (markTerminated post inst.id) (termIds ++ [inst.id])
        (arr ++ [get_instance_info inst]) true
      refine ⟨post', ?_⟩
      simp [terminateEach, h, hterm, withCalls, hp, List.filter_cons]
    · obtain ⟨post', hp⟩ := ih post termIds arr ch
      refine ⟨post', ?_⟩
      simp [terminateEach, h, hp, List.filter_cons]

theorem termWaitLoop_calls (post : List Inst) (termIds : List String) (deadline : Nat) :
    ∀ (fuel now num : Nat) (c : Call),
      c ∈ (termWaitLoop post termIds deadline fuel now num).2.2 → c = .getAllInstances := by
  intro fuel
  induction fuel with
  | zero => intro now num c hc; simp [termWaitLoop] at hc
  | succ fuel ih =>
    intro now num c hc
    rw [termWaitLoop] at hc
    dsimp only at hc
    split at hc
    · simp at hc
    · split at hc
      · rcases List.mem_cons.mp hc with rfl | hc'
        · rfl
        · exact ih _ _ c hc'
      · split at hc
        · rcases List.mem_cons.mp hc with rfl | hc'
          · rfl
          · exact ih _ _ c hc'
        · rcases List.mem_cons.mp hc with rfl | hc'
          · rfl
          · simp at hc'

/-!
Claim C8.  The records returned by the Terminator.
-/

/-- C8 counterexample: with waiting requested, terminating the single
running instance `i-1` returns a record whose state is `terminated`
(the issue600 post-termination re-read), which differs from the
pre-termination snapshot (state `running`) — so "the returned records
are the pre-termination snapshot regardless of whether waiting was
requested" is false. -/
theorem C8_counterexample :
    (terminate_instances { wait := true }
        { instances := [{ id := "i-1", state := "running" }] } ["i-1"]).1 =
      .ok (true, [{ id := "i-1", state := "terminated" }], ["i-1"]) ∧
    get_instance_info { id := "i-1", state := "running" } =
      { id := "i-1", state := "running" } ∧
    ({ id := "i-1", state := "terminated" } : InstInfo) ≠
      { id := "i-1", state := "running" } := by
  decide

/-- C8 amended: without waiting, the returned records are the
pre-termination snapshot (the matched `running`/`stopped` instances
as observed before the terminate calls); with waiting requested, the
records are re-read after termination and every returned record
reports the `terminated` state. -/
theorem C8_amended (p : Params) (e : EC2) (ids : List String) (ch : Bool)
    (recs : List InstInfo) (tids : List String)
    (hterm : ∀ i, e.terminateErr i = none)
    (hres : (terminate_instances p e ids).1 = .ok (ch, recs, tids)) :
    (p.wait = false →
      recs = ((e.instances.filter (fun i => ids.contains i.id)).filter terminable).map
        get_instance_info) ∧
    (p.wait = true → ∀ r ∈ recs, r.state = "terminated") := by
  by_cases hids : ids.isEmpty
  · rw [terminate_instances] at hres
    rw [if_pos hids] at hres
    cases hres
  · have hids' : ids.isEmpty = false := by simpa using hids
    obtain ⟨post', hp⟩ :=
      terminateEach_spec e hterm (e.instances.filter (fun i => ids.contains i.id))
        e.instances [] [] false
    rw [terminate_instances] at hres
    simp only [hids', Bool.false_eq_true, if_false, withCalls, hp, andThen_ok] at hres
    cases hw : p.wait with
    | false =>
      rw [hw, if_neg (by decide)] at hres
      simp only [cok, Prod.fst, List.nil_append, Except.ok.injEq, Prod.mk.injEq] at hres
      exact ⟨fun _ => hres.2.1.symm, fun h => nomatch h⟩
    | true =>
      rw [hw, if_pos rfl] at hres
      refine ⟨fun h => (nomatch h), fun _ => ?_⟩
      split at hres
      · simp at hres
      · simp only [Prod.fst, Except.ok.injEq, Prod.mk.injEq] at hres
        obtain ⟨-, hrecs, -⟩ := hres
        intro r hr
        rw [← hrecs] at hr
        simp only [List.mem_map, List.mem_filter] at hr
        obtain ⟨i, ⟨-, hi2⟩, rfl⟩ := hr
        simp only [Bool.and_eq_true, beq_iff_eq] at hi2
        exact hi2.2

/-- C8 witness: the amended statement evaluated with waiting off (the
pre-termination `running` snapshot is returned) and the wait=true
conclusion of the amended theorem on the counterexample scenario. -/
theorem C8_witness :
    ((terminate_instances { wait := false }
        { instances := [{ id := "i-1", state := "running" }] } ["i-1"]).1 =
      .ok (true, [{ id := "i-1", state := "running" }], ["i-1"]) ∧
     [({ id := "i-1", state := "running" } : InstInfo)] =
       ((([{ id := "i-1", state := "running" }] : List Inst).filter
           (fun i => (["i-1"] : List String).contains i.id)).filter terminable).map
         get_instance_info) ∧
    ∀ r ∈ [({ id := "i-1", state := "terminated" } : InstInfo)], r.state = "terminated" := by
  refine ⟨⟨by decide, ?_⟩, ?_⟩
  · exact (C8_amended { wait := false } { instances := [{ id := "i-1", state := "running" }] }
      ["i-1"] true [{ id := "i-1", state := "running" }] ["i-1"] (fun _ => rfl)
      (by decide)).1 rfl
  · exact (C8_amended { wait := true } { instances := [{ id := "i-1", state := "running" }] }
      ["i-1"] true [{ id := "i-1", state := "terminated" }] ["i-1"] (fun _ => rfl)
      (by decide)).2 rfl

/-! Further helper lemmas about the terminate call trace. -/

theorem filter_isTerminate_mapTerm (l : List Inst) :
    (l.map (fun i => Call.terminateCall [i.id])).filter Call.isTerminate =
      l.map (fun i => Call.terminateCall [i.id]) := by
  induction l with
  | nil => rfl
  | cons a l ih => simp [List.filter_cons, Call.isTerminate, ih]

theorem filter_isTerminate_nil_of_gai (cs : List Call)
    (h : ∀ c ∈ cs, c = .getAllInstances) : cs.filter Call.isTerminate = [] := by
  induction cs with
  | nil => rfl
  | cons a cs ih =>
    have ha := h a (List.mem_cons_self a cs)
    subst ha
    simp [List.filter_cons, Call.isTerminate,
      ih (fun c hc => h c (List.mem_cons_of_mem _ hc))]

theorem isEmpty_false_of_ne_nil {l : List α} (h : l ≠ []) : l.isEmpty = false := by
  cases l with
  | nil => exact absurd rfl h
  | cons a l => rfl

theorem filter_isTerminate_termWaitLoop (post : List Inst) (termIds : List String)
    (deadline fuel now num : Nat) :
    ((termWaitLoop post termIds deadline fuel now num).2.2).filter Call.isTerminate = [] :=
  filter_isTerminate_nil_of_gai _ (termWaitLoop_calls post termIds deadline fuel now num)

/-!
Claim C9.  Terminator input validation, selective termination and
idempotent skipping.
-/

/-- C9: empty input is a validation failure with no provider call; a
terminate call is issued exactly for the matching instances in
`running` or `stopped` state; identifiers that are already terminated
or not found contribute neither an error nor an entry in the returned
terminated-identifier list (which equals exactly the terminable
matches); and `changed=false` exactly when no instance was in a
terminable state.  (The "not a list" half of the input validation is
a Python dynamic-type check outside the typed embedding.) -/
theorem C9_theorem :
    (∀ (p : Params) (e : EC2),
      terminate_instances p e [] = (.error (.failJson .instanceIdsShouldBeList), [])) ∧
    (∀ (p : Params) (e : EC2) (ids : List String), ids ≠ [] →
      (∀ i, e.terminateErr i = none) →
      (terminate_instances p e ids).2.filter Call.isTerminate =
        ((e.instances.filter (fun i => ids.contains i.id)).filter terminable).map
          (fun i => Call.terminateCall [i.id])) ∧
    (∀ (p : Params) (e : EC2) (ids : List String) (ch : Bool) (recs : List InstInfo)
        (tids : List String),
      (∀ i, e.terminateErr i = none) →
      (terminate_instances p e ids).1 = .ok (ch, recs, tids) →
      tids = ((e.instances.filter (fun i => ids.contains i.id)).filter terminable).map
        Inst.id ∧
      (ch = false ↔
        (e.instances.filter (fun i => ids.contains i.id)).filter terminable = [])) ∧
    (∀ (p : Params) (e : EC2) (ids : List String), ids ≠ [] →
      (∀ i, e.terminateErr i = none) → p.wait = false →
      ∃ v, (terminate_instances p e ids).1 = .ok v) := by
  refine ⟨?_, ?_, ?_, ?_⟩
  · intro p e
    simp [terminate_instances, cfail]
  · intro p e ids hne hterm
    obtain ⟨post', hp⟩ :=
      terminateEach_spec e hterm (e.instances.filter (fun i => ids.contains i.id))
        e.instances [] [] false
    rw [terminate_instances, if_neg (by simp [isEmpty_false_of_ne_nil hne])]
    simp only [withCalls, hp, andThen_ok]
    cases hw : p.wait with
    | false =>
      rw [if_neg (by decide)]
      simp [cok, List.filter_append, List.filter_cons, Call.isTerminate,
        filter_isTerminate_mapTerm]
    | true =>
      rw [if_pos rfl]
      split <;>
        simp [List.filter_append, List.filter_cons, Call.isTerminate,
          filter_isTerminate_mapTerm, filter_isTerminate_termWaitLoop]
  · intro p e ids ch recs tids hterm hres
    by_cases hids : ids.isEmpty
    · rw [terminate_instances, if_pos hids] at hres
      cases hres
    · have hids' : ids.isEmpty = false := by simpa using hids
      obtain ⟨post', hp⟩ :=
        terminateEach_spec e hterm (e.instances.filter (fun i => ids.contains i.id))
          e.instances [] [] false
      rw [terminate_instances] at hres
      simp only [hids', Bool.false_eq_true, if_false, withCalls, hp, andThen_ok] at hres
      have key : ch = !((e.instances.filter (fun i => ids.contains i.id)).filter
            terminable).isEmpty ∧
          tids = ((e.instances.filter (fun i => ids.contains i.id)).filter terminable).map
            Inst.id := by
        cases hw : p.wait with
        | false =>
          rw [hw, if_neg (by decide)] at hres
          simp only [cok, Prod.fst, List.nil_append, Bool.false_or, Except.ok.injEq,
            Prod.mk.injEq] at hres
          exact ⟨hres.1.symm, hres.2.2.symm⟩
        | true =>
          rw [hw, if_pos rfl] at hres
          split at hres
          · simp at hres
          · simp only [Prod.fst, List.nil_append, Bool.false_or, Except.ok.injEq,
              Prod.mk.injEq] at hres
            exact ⟨hres.1.symm, hres.2.2.symm⟩
      refine ⟨key.2, ?_⟩
      rw [key.1]
      constructor
      · intro hb
        have : ((e.instances.filter (fun i => ids.contains i.id)).filter
            terminable).isEmpty = true := by
          cases hE : ((e.instances.filter (fun i => ids.contains i.id)).filter
              terminable).isEmpty
          · rw [hE] at hb; cases hb
          · rfl
        simpa [List.isEmpty_iff] using this
      · intro hl
        rw [hl]
        rfl
  · intro p e ids hne hterm hw
    obtain ⟨post', hp⟩ :=
      terminateEach_spec e hterm (e.instances.filter (fun i => ids.contains i.id))
        e.instances [] [] false
    rw [terminate_instances, if_neg (by simp [isEmpty_false_of_ne_nil hne])]
    simp only [withCalls, hp, andThen_ok, hw]
    rw [if_neg (by decide)]
    exact ⟨_, rfl⟩

/-- C9 witness: the validation failure on empty input, and the
selective-termination conclusions evaluated on a snapshot holding a
running `i-1`, an already-terminated `i-2` and no `i-3`: the only
terminate call and the only returned identifier are for `i-1`, and
`changed` is not false; separately, with no terminable match the
returned `changed` is false. -/
theorem C9_witness :
    terminate_instances {} { instances := [{ id := "i-1", state := "running" },
        { id := "i-2", state := "terminated" }] } [] =
      (.error (.failJson .instanceIdsShouldBeList), []) ∧
    (terminate_instances {} { instances := [{ id := "i-1", state := "running" },
        { id := "i-2", state := "terminated" }] } ["i-1", "i-2", "i-3"]).2.filter
        Call.isTerminate =
      ((([{ id := "i-1", state := "running" },
          { id := "i-2", state := "terminated" }] : List Inst).filter
            (fun i => (["i-1", "i-2", "i-3"] : List String).contains i.id)).filter
          terminable).map (fun i => Call.terminateCall [i.id]) ∧
    (["i-1"] =
      ((([{ id := "i-1", state := "running" },
          { id := "i-2", state := "terminated" }] : List Inst).filter
            (fun i => (["i-1", "i-2", "i-3"] : List String).contains i.id)).filter
          terminable).map Inst.id ∧
      (true = false ↔
        (([{ id := "i-1", state := "running" },
           { id := "i-2", state := "terminated" }] : List Inst).filter
            (fun i => (["i-1", "i-2", "i-3"] : List String).contains i.id)).filter
          terminable = [])) ∧
    (false = false ↔
      (([{ id := "i-2", state := "terminated" }] : List Inst).filter
          (fun i => (["i-2"] : List String).contains i.id)).filter terminable = []) := by
  refine ⟨?_, ?_, ?_, ?_⟩
  · exact C9_theorem.1 {} _
  · exact C9_theorem.2.1 {} { instances := [{ id := "i-1", state := "running" },
        { id := "i-2", state := "terminated" }] } ["i-1", "i-2", "i-3"] (by decide)
      (fun i => rfl)
  · exact C9_theorem.2.2.1 {} { instances := [{ id := "i-1", state := "running" },
        { id := "i-2", state := "terminated" }] } ["i-1", "i-2", "i-3"] true
      [{ id := "i-1", state := "running" }] ["i-1"] (fun i => rfl) (by decide)
  · exact (C9_theorem.2.2.1 {} { instances := [{ id := "i-2", state := "terminated" }] }
      ["i-2"] false [] [] (fun i => rfl) (by decide)).2

/-! Timing lemma for the instances-running polling loop. -/

theorem runningWaitLoop_timeout (e : EC2) (instids : List String) (deadline : Nat)
    (hlen : instids ≠ [])
    (hpoll : ∀ t ids, ∃ L, e.pollInstances t ids = .res L ∧ countRunningIn L = 0) :
    ∀ (fuel now : Nat) (lastRes : Option (List (List Inst))), now < deadline →
      deadline - now < fuel →
      ∃ T L cs, runningWaitLoop e true instids deadline fuel now 0 lastRes =
        .done T 0 (some L) cs ∧ deadline ≤ T ∧ T < deadline + 5 := by
  intro fuel
  induction fuel with
  | zero => intro now lastRes h1 h2; omega
  | succ fuel ih =>
    intro now lastRes h1 h2
    obtain ⟨L, hL, hcnt⟩ := hpoll now instids
    have h3 : ¬ (deadline ≤ now) := by omega
    have h4 : ¬ (instids.length ≤ 0) := by
      have := List.length_pos.mpr hlen
      omega
    rw [runningWaitLoop, if_neg (by simp [h3, h4]), hL]
    dsimp only
    rw [hcnt]
    by_cases hLe : L.isEmpty
    · rw [if_pos hLe]
      by_cases h5 : now + 1 < deadline
      · obtain ⟨T, L', cs, heq, hT1, hT2⟩ := ih (now + 1) (some L) h5 (by omega)
        exact ⟨T, L', Call.getAllInstances :: cs, by rw [heq]; rfl, hT1, hT2⟩
      · have hstop : runningWaitLoop e true instids deadline fuel (now + 1) 0 (some L) =
            .done (now + 1) 0 (some L) [] := by
          cases fuel with
          | zero => rfl
          | succ fuel' =>
            rw [runningWaitLoop, if_pos (by simp [show deadline ≤ now + 1 by omega])]
        exact ⟨now + 1, L, [Call.getAllInstances], by rw [hstop]; rfl, by omega, by omega⟩
    · rw [if_neg hLe, if_pos (by simp [show 0 < instids.length by omega])]
      by_cases h5 : now + 5 < deadline
      · obtain ⟨T, L', cs, heq, hT1, hT2⟩ := ih (now + 5) (some L) h5 (by omega)
        exact ⟨T, L', Call.getAllInstances :: cs, by rw [heq]; rfl, hT1, hT2⟩
      · have hstop : runningWaitLoop e true instids deadline fuel (now + 5) 0 (some L) =
            .done (now + 5) 0 (some L) [] := by
          cases fuel with
          | zero => rfl
          | succ fuel' =>
            rw [runningWaitLoop, if_pos (by simp [show deadline ≤ now + 5 by omega])]
        exact ⟨now + 5, L, [Call.getAllInstances], by rw [hstop]; rfl, by omega, by omega⟩

/-!
Claim C7.  The wait-for-running timeout.
-/

/-- C7: with `wait=true` and wait timeout W, against a provider that
accepts the creation but never reports any instance running, the
operation fails with the wait-for-instances-running timeout, at a
clock T with W ≤ T < W + 5: not before the deadline, and at most one
5-second poll interval past it — never indefinitely. -/
theorem C7_theorem (p : Params) (caps : BotoCaps) (e : EC2) (created : List Inst)
    (hwait : p.wait = true) (hspot : p.spot_price = none)
    (hg : p.group = none) (hgid : p.group_id = none) (hvpc : p.vpc_subnet_id = none)
    (hid : p.id = none) (hcount : p.count ≠ 0) (hprof : caps.profile_name = true)
    (hpub : p.assign_public_ip = false) (hvol : p.volumes = none)
    (hrun : e.runInstances p.count = .ok created) (hcr : created ≠ [])
    (hnt : ∀ i ∈ created, ¬ i.state = "terminated")
    (hpoll : ∀ t ids, ∃ L, e.pollInstances t ids = .res L ∧ countRunningIn L = 0) :
    ∃ T, (create_instances p caps e).1 =
      .error (.failJson (.waitForInstancesRunningTimeout T)) ∧
      p.wait_timeout ≤ T ∧ T < p.wait_timeout + 5 := by
  have hterm0 : created.filter (fun i => i.state == "terminated") = [] :=
    List.filter_eq_nil_iff.mpr (fun i hi => by simpa using hnt i hi)
  obtain ⟨L0, hL0, -⟩ := hpoll 0 (created.map Inst.id)
  have hsub : onDemandSubmit e p.count =
      ((.ok (created.map Inst.id, created)), [.runInstances p.count, .getAllInstances]) := by
    simp [onDemandSubmit, hrun, hL0, hterm0]
  have hstep : (create_instances p caps e).1 =
      (postSubmit p e (some (created.map Inst.id)) (some created) [] 0).1 := by
    simp [create_instances, resolveVpcId, resolveGroups, profileCheck, publicIpCheck,
      volumesStep, truthyStr, truthyList, hspot, hg, hgid, hvpc, hid, hcount, hprof,
      hpub, hvol, hsub, andThen_cok, andThen, cok, withCalls]
  rw [hstep]
  by_cases hW : 0 < p.wait_timeout
  · obtain ⟨T, L, cs, heq, hT1, hT2⟩ := runningWaitLoop_timeout e (created.map Inst.id)
      (0 + p.wait_timeout) (by simp [hcr]) hpoll
      (0 + p.wait_timeout - 0 + 1) 0 none (by omega) (by omega)
    refine ⟨T, ?_, by omega, by omega⟩
    rw [postSubmit]
    rw [if_pos (show (0 : Nat) < 0 + p.wait_timeout by omega)]
    rw [hwait, heq]
    have hd : p.wait_timeout ≤ T := by omega
    simp [withCalls, afterLoop, hwait, hd, cfail]
  · have hW0 : p.wait_timeout = 0 := by omega
    refine ⟨0, ?_, by omega, by omega⟩
    rw [postSubmit, if_neg (by omega)]
    simp [afterLoop, hwait, hW0, cfail]

/-! Lemmas about the spot-assignment bookkeeping and loop, and the
absence of the spot-timeout failure downstream of the submission. -/

theorem lookup_append_isSome {l1 l2 : List (String × String)} {s : String}
    (h : (l1.lookup s).isSome) : ((l1 ++ l2).lookup s).isSome := by
  induction l1 with
  | nil => simp [List.lookup] at h
  | cons kv l1 ih =>
    rcases kv with ⟨k, v⟩
    by_cases hk : (s == k) = true
    · simp [List.lookup, hk]
    · simp only [List.lookup, hk, List.cons_append] at h ⊢
      exact ih h

theorem lookup_append_self {l : List (String × String)} {s v : String} :
    ((l ++ [(s, v)]).lookup s).isSome := by
  induction l with
  | nil => simp [List.lookup]
  | cons kv l ih =>
    rcases kv with ⟨k, w⟩
    by_cases hk : (s == k) = true
    · simp [List.lookup, hk]
    · simp [List.lookup, hk, ih]

theorem assignOnce_lookup_mono (R : List SpotReq) :
    ∀ (sids : List String) (acc : List (String × String)) (s : String),
      ((acc.lookup s).isSome) → (((assignOnce R acc sids).lookup s).isSome) := by
  intro sids
  induction sids with
  | nil => intro acc s h; exact h
  | cons sirb rest ih =>
    intro acc s h
    rw [assignOnce, List.foldl_cons]
    by_cases h1 : ((acc.lookup sirb).isSome : Prop)
    · rw [if_pos h1]
      exact ih acc s h
    · rw [if_neg h1]
      cases hm : lastMatch R sirb with
      | none => exact ih acc s h
      | some iid => exact ih (acc ++ [(sirb, iid)]) s (lookup_append_isSome h)

theorem assignOnce_covers (R : List SpotReq) :
    ∀ (sids : List String) (acc : List (String × String)) (s : String), s ∈ sids →
      (((assignOnce R acc sids).lookup s).isSome) ∨ lastMatch R s = none := by
  intro sids
  induction sids with
  | nil => intro acc s h; cases h
  | cons sirb rest ih =>
    intro acc s hs
    rw [assignOnce, List.foldl_cons]
    rcases List.mem_cons.mp hs with rfl | hmem
    · by_cases h1 : ((acc.lookup s).isSome : Prop)
      · rw [if_pos h1]
        exact Or.inl (assignOnce_lookup_mono R rest acc s h1)
      · rw [if_neg h1]
        cases hm : lastMatch R s with
        | none => exact Or.inr rfl
        | some iid =>
          exact Or.inl (assignOnce_lookup_mono R rest (acc ++ [(s, iid)]) s
            lookup_append_self)
    · by_cases h1 : ((acc.lookup sirb).isSome : Prop)
      · rw [if_pos h1]
        exact ih acc s hmem
      · rw [if_neg h1]
        cases hm : lastMatch R sirb with
        | none => exact ih acc s hmem
        | some iid => exact ih (acc ++ [(sirb, iid)]) s hmem

theorem assignOnce_fixpoint (R : List SpotReq) :
    ∀ (sids : List String) (acc : List (String × String)),
      (∀ s ∈ sids, ((acc.lookup s).isSome) ∨ lastMatch R s = none) →
      assignOnce R acc sids = acc := by
  intro sids
  induction sids with
  | nil => intro acc _; rfl
  | cons sirb rest ih =>
    intro acc h
    rw [assignOnce, List.foldl_cons]
    rcases h sirb (List.mem_cons_self sirb rest) with h1 | h1
    · rw [if_pos h1]
      exact ih acc (fun s hs => h s (List.mem_cons_of_mem _ hs))
    · by_cases h2 : ((acc.lookup sirb).isSome : Prop)
      · rw [if_pos h2]
        exact ih acc (fun s hs => h s (List.mem_cons_of_mem _ hs))
      · rw [if_neg h2, h1]
        exact ih acc (fun s hs => h s (List.mem_cons_of_mem _ hs))

theorem assignOnce_idem (R : List SpotReq) (sids : List String) :
    assignOnce R (assignOnce R [] sids) sids = assignOnce R [] sids :=
  assignOnce_fixpoint R sids (assignOnce R [] sids)
    (fun s hs => assignOnce_covers R sids [] s hs)

theorem spotWaitLoop_stuck (e : EC2) (resIds : List String) (count : Int) (deadline : Nat)
    (R : List SpotReq) (hR : ∀ t, e.spotRequests t = R)
    (hlt : ((assignOnce R [] resIds).length : Int) < count) :
    ∀ (fuel now : Nat), deadline - now < fuel →
      ∃ T cs, spotWaitLoop e resIds count deadline fuel now (assignOnce R [] resIds) =
        ⟨assignOnce R [] resIds, T, cs⟩ ∧ deadline ≤ T := by
  intro fuel
  induction fuel with
  | zero => intro now h; omega
  | succ fuel ih =>
    intro now h
    by_cases h1 : deadline ≤ now
    · exact ⟨now, [], by rw [spotWaitLoop, if_pos h1], h1⟩
    · rw [spotWaitLoop, if_neg h1, hR]
      dsimp only
      rw [assignOnce_idem]
      rw [if_pos hlt]
      obtain ⟨T, cs, heq, hT⟩ := ih (now + 5) (by omega)
      exact ⟨T, Call.getAllSpotRequests :: cs, by rw [heq], hT⟩

theorem spotWaitLoop_timeout_const (e : EC2) (resIds : List String) (count : Int)
    (deadline : Nat) (R : List SpotReq) (hR : ∀ t, e.spotRequests t = R)
    (hlt : ((assignOnce R [] resIds).length : Int) < count) (hd : 0 < deadline) :
    ∃ T cs, spotWaitLoop e resIds count deadline (deadline + 1) 0 [] =
      ⟨assignOnce R [] resIds, T, cs⟩ ∧ deadline ≤ T := by
  cases hf : deadline + 1 with
  | zero => omega
  | succ fuel =>
    rw [spotWaitLoop, if_neg (by omega), hR]
    dsimp only
    rw [if_pos hlt]
    obtain ⟨T, cs, heq, hT⟩ := spotWaitLoop_stuck e resIds count deadline R hR hlt
      fuel (0 + 5) (by omega)
    exact ⟨T, Call.getAllSpotRequests :: cs, by rw [heq], hT⟩

theorem spotWaitLoop_done (e : EC2) (resIds : List String) (count : Int)
    (deadline : Nat) (R : List SpotReq) (hR : ∀ t, e.spotRequests t = R)
    (hge : ¬ ((assignOnce R [] resIds).length : Int) < count) (hd : 0 < deadline) :
    spotWaitLoop e resIds count deadline (deadline + 1) 0 [] =
      ⟨assignOnce R [] resIds, 0, [Call.getAllSpotRequests]⟩ := by
  cases hf : deadline + 1 with
  | zero => omega
  | succ fuel =>
    rw [spotWaitLoop, if_neg (by omega), hR]
    dsimp only
    rw [if_neg hge]

theorem andThen_fst (x : CRes α) (f : α → CRes β) :
    (andThen x f).1 =
      match x.1 with
      | .error h => .error h
      | .ok a => (f a).1 := by
  rcases x with ⟨x1, cs⟩
  cases x1 <;> rfl

theorem attrStep_err (flag : Bool) (r : Except Halt (List Inst)) (h : Halt)
    (he : (attrStep flag r).1 = .error h) : r = .error h := by
  rw [attrStep.eq_def] at he
  split at he
  · split at he
    · simp only [Prod.fst, Except.error.injEq] at he
      rw [he]
    · simp at he
  · simp [cok] at he

theorem tagStep_err (p : Params) (e : EC2) (h : Halt)
    (he : (tagStep p e).1 = .error h) :
    ∃ code, h = .failJson (.instanceTaggingFailed code) := by
  rw [tagStep.eq_def] at he
  split at he
  · split at he
    · simp only [Prod.fst, Except.error.injEq] at he
      exact ⟨_, he.symm⟩
    · simp at he
  · simp [cok] at he

theorem resAttrOf_err (L : List (List Inst)) (fb : Option (List Inst)) (h : Halt)
    (he : resAttrOf L fb = .error h) : h = .pyError "res.instances" := by
  rw [resAttrOf.eq_def] at he
  split at he
  · cases he
  · split at he
    · cases he
    · exact (Except.error.inj he).symm

theorem afterLoop_no_spotTimeout (p : Params) (e : EC2) (fb : Option (List Inst))
    (r0 : List Inst) (d n1 T : Nat) (lr : Option (List (List Inst))) :
    (afterLoop p e fb r0 d n1 lr).1 ≠ .error (.failJson (.waitForSpotRequestsTimeout T)) := by
  rw [afterLoop.eq_def]
  split
  · simp [cfail]
  · cases lr with
    | none => simp
    | some L =>
      dsimp only
      rw [andThen_fst]
      split
      · next h heq =>
        have := resAttrOf_err L fb h (attrStep_err _ _ h heq)
        simp [this]
      · rw [andThen_fst]
        split
        · next h heq =>
          have := resAttrOf_err L fb h (attrStep_err _ _ h heq)
          simp [this]
        · rw [andThen_fst]
          split
          · next h heq =>
            obtain ⟨code, rfl⟩ := tagStep_err p e h heq
            simp
          · simp

theorem postSubmit_no_spotTimeout (p : Params) (e : EC2) (io : Option (List String))
    (fb : Option (List Inst)) (r0 : List Inst) (n0 T : Nat) :
    (postSubmit p e io fb r0 n0).1 ≠ .error (.failJson (.waitForSpotRequestsTimeout T)) := by
  rw [postSubmit.eq_def]
  cases io with
  | none =>
    dsimp only
    split
    · simp
    · exact afterLoop_no_spotTimeout p e fb r0 _ _ T _
  | some ids =>
    dsimp only
    split
    · split
      · simp
      · simp only [withCalls]
        exact afterLoop_no_spotTimeout p e fb r0 _ _ T _
    · exact afterLoop_no_spotTimeout p e fb r0 _ _ T _

/-!
Claim C6.  The spot-assignment wait and its timeout condition.
-/

/-- C6 counterexample: with requested count 2 and one already-running
token-matched instance, only ONE spot request is submitted; the
provider assigns it an instance id in the very first poll (so every
submitted request is assigned well before the deadline), yet the
operation still fails with the spot-request timeout, because the loop
compares the assignment count against the original `count` (2), not
against the submitted count — refuting the claimed "if and only if
not all submitted requests have an assigned instance identifier". -/
theorem C6_counterexample :
    (create_instances
      { id := some "tok", count := 2, spot_price := some "0.10",
        wait := true, spot_wait_timeout := 10 } {}
      { instances := [{ id := "i-0", state := "running", clientToken := some "tok" }],
        requestSpot := fun _ => .ok ["sir-1"],
        spotRequests := fun _ => [{ id := "sir-1", instance_id := some "i-9" }] }).1 =
      .error (.failJson (.waitForSpotRequestsTimeout 10)) ∧
    (({ instances := [{ id := "i-0", state := "running", clientToken := some "tok" }],
        requestSpot := fun _ => .ok ["sir-1"],
        spotRequests := fun _ => [{ id := "sir-1", instance_id := some "i-9" }] } : EC2)).requestSpot
        1 = .ok ["sir-1"] ∧
    ∀ sid ∈ ["sir-1"],
      (lastMatch [{ id := "sir-1", instance_id := some "i-9" }] sid).isSome := by
  decide

/-- C6 amended: under a constant spot-request oracle, the operation
raises the spot-request timeout error if and only if the number of
submitted requests that obtain an assigned instance identifier is
below the ORIGINAL requested count (the `count` parameter) — not the
submitted count.  When no idempotency-token matches reduced the
submission, the two coincide and the claim's reading holds; when they
differ, polling can never succeed even with every submitted request
assigned. -/
theorem C6_amended (p : Params) (caps : BotoCaps) (e : EC2) (tok sp : String)
    (R : List SpotReq) (reqIds : List String) (rem : Int)
    (hspot : p.spot_price = some sp) (hsp : sp ≠ "") (hwait : p.wait = true)
    (hpriv : p.private_ip = none) (hpg : caps.spot_placement_group = true)
    (hg : p.group = none) (hgid : p.group_id = none) (hvpc : p.vpc_subnet_id = none)
    (hprof : caps.profile_name = true) (hpub : p.assign_public_ip = false)
    (hvol : p.volumes = none) (hid : p.id = some tok)
    (hremdef : rem = p.count - ((tokenMatched e tok).length : Int))
    (hrem : rem ≠ 0) (hsub : e.requestSpot rem = .ok reqIds)
    (hR : ∀ t, e.spotRequests t = R) (hws : 1 ≤ p.spot_wait_timeout) :
    (∃ T, (create_instances p caps e).1 =
        .error (.failJson (.waitForSpotRequestsTimeout T))) ↔
      ((assignOnce R [] reqIds).length : Int) < p.count := by
  have hrem' : p.count - ((tokenMatched e tok).length : Int) ≠ 0 := hremdef ▸ hrem
  have hsub' : e.requestSpot (p.count - ((tokenMatched e tok).length : Int)) =
      .ok reqIds := hremdef ▸ hsub
  have hstep : (create_instances p caps e).1 =
      (andThen (spotSubmit p caps e (p.count - ((tokenMatched e tok).length : Int)) p.count)
        fun pr => postSubmit p e pr.1 none (tokenMatched e tok) pr.2).1 := by
    simp [create_instances, resolveVpcId, resolveGroups, profileCheck, publicIpCheck,
      volumesStep, truthyStr, truthyList, hspot, hsp, hg, hgid, hvpc, hid, hrem', hprof,
      hpub, hvol, andThen_cok, andThen, cok, withCalls]
  rw [hstep]
  by_cases hlt : ((assignOnce R [] reqIds).length : Int) < p.count
  · obtain ⟨T, cs, heq, hT⟩ := spotWaitLoop_timeout_const e reqIds p.count
      p.spot_wait_timeout R hR hlt (by omega)
    have hspotSub : (spotSubmit p caps e (p.count - ((tokenMatched e tok).length : Int))
        p.count).1 = .error (.failJson (.waitForSpotRequestsTimeout T)) := by
      simp [spotSubmit, truthyStr, hpriv, hpg, hsub', hwait, heq, hT,
        andThen_cok, andThen, cok]
    have hall : (andThen (spotSubmit p caps e
          (p.count - ((tokenMatched e tok).length : Int)) p.count)
        fun pr => postSubmit p e pr.1 none (tokenMatched e tok) pr.2).1 =
        .error (.failJson (.waitForSpotRequestsTimeout T)) := by
      rw [andThen_fst, hspotSub]
    exact ⟨fun _ => hlt, fun _ => ⟨T, hall⟩⟩
  · have hdone := spotWaitLoop_done e reqIds p.count p.spot_wait_timeout R hR hlt
      (by omega)
    have hspotSub : (spotSubmit p caps e (p.count - ((tokenMatched e tok).length : Int))
        p.count).1 = .ok (some ((assignOnce R [] reqIds).map Prod.snd), 0) := by
      simp [spotSubmit, truthyStr, hpriv, hpg, hsub', hwait, hdone,
        show ¬ (p.spot_wait_timeout ≤ 0) by omega, andThen_cok, andThen, cok]
    refine ⟨fun hex => absurd ?_ hlt, fun h => absurd h hlt⟩
    obtain ⟨T, hT⟩ := hex
    rw [andThen_fst, hspotSub] at hT
    exact absurd hT (postSubmit_no_spotTimeout p e _ none _ 0 T)

/-- C6 witness: the amended iff evaluated on the counterexample
scenario (count 2, one token-matched instance, one submitted and
immediately assigned spot request): the timeout error occurs exactly
because 1 < 2. -/
theorem C6_witness :
    (∃ T, (create_instances
        { id := some "tok", count := 2, spot_price := some "0.10",
          wait := true, spot_wait_timeout := 10 } {}
        { instances := [{ id := "i-0", state := "running", clientToken := some "tok" }],
          requestSpot := fun _ => .ok ["sir-1"],
          spotRequests := fun _ => [{ id := "sir-1", instance_id := some "i-9" }] }).1 =
        .error (.failJson (.waitForSpotRequestsTimeout T))) ↔
      ((assignOnce [{ id := "sir-1", instance_id := some "i-9" }] [] ["sir-1"]).length :
        Int) < 2 :=
  C6_amended
    { id := some "tok", count := 2, spot_price := some "0.10",
      wait := true, spot_wait_timeout := 10 } {}
    { instances := [{ id := "i-0", state := "running", clientToken := some "tok" }],
      requestSpot := fun _ => .ok ["sir-1"],
      spotRequests := fun _ => [{ id := "sir-1", instance_id := some "i-9" }] }
    "tok" "0.10" [{ id := "sir-1", instance_id := some "i-9" }] ["sir-1"] 1
    rfl (by decide) rfl rfl rfl rfl rfl rfl rfl rfl rfl rfl (by decide) (by decide) rfl
    (fun t => rfl) (by decide)

/-- C7 witness: the spec scenario — `wait=true`, `wait_timeout=1`, a
provider that accepts the creation of `i-1` but forever reports it
`pending` — fails with the running-wait timeout at a clock T with
1 ≤ T < 6. -/
theorem C7_witness :
    ∃ T, (create_instances { wait := true, wait_timeout := 1 } {}
        { runInstances := fun _ => .ok [{ id := "i-1", state := "pending" }],
          pollInstances := fun _ _ => .res [[{ id := "i-1", state := "pending" }]] }).1 =
      .error (.failJson (.waitForInstancesRunningTimeout T)) ∧ 1 ≤ T ∧ T < 1 + 5 :=
  C7_theorem { wait := true, wait_timeout := 1 } {}
    { runInstances := fun _ => .ok [{ id := "i-1", state := "pending" }],
      pollInstances := fun _ _ => .res [[{ id := "i-1", state := "pending" }]] }
    [{ id := "i-1", state := "pending" }]
    rfl rfl rfl rfl rfl rfl (by decide) rfl rfl rfl rfl (by decide) (by decide)
    (fun t ids => ⟨[[{ id := "i-1", state := "pending" }]], rfl, rfl⟩)

/-! Lemmas about the filter dictionary and the running-state
constraint of `find_running_instances_by_count_tag`. -/

theorem updateFilter_mem (fs : List (FilterKey × String)) (k : FilterKey) (v : String) :
    (k, v) ∈ updateFilter fs k v := by
  induction fs with
  | nil => simp [updateFilter]
  | cons kv rest ih =>
    rw [updateFilter]
    split
    · exact List.mem_cons_self _ _
    · exact List.mem_cons_of_mem _ ih

theorem updateFilter_mem_preserve (fs : List (FilterKey × String)) (k k' : FilterKey)
    (v v' : String) (hne : k ≠ k') (h : (k, v) ∈ fs) : (k, v) ∈ updateFilter fs k' v' := by
  induction fs with
  | nil => cases h
  | cons kv rest ih =>
    rw [updateFilter]
    split
    · next heq =>
      rcases List.mem_cons.mp h with h1 | h2
      · exact absurd (by rw [← h1] at heq; exact heq) hne
      · exact List.mem_cons_of_mem _ h2
    · rcases List.mem_cons.mp h with h1 | h2
      · exact h1 ▸ List.mem_cons_self _ _
      · exact List.mem_cons_of_mem _ (ih h2)

theorem stateName_mem_filters (ct : Option TagsSpec) (z : Option String) :
    (FilterKey.stateName, "running") ∈ get_reservations_filters ct (some "running") z := by
  rw [get_reservations_filters.eq_def]
  simp only [show ("running" = "") = False by simp, if_false]
  cases z with
  | none => exact updateFilter_mem _ _ _
  | some zz =>
    dsimp only
    by_cases hz : zz = ""
    · simp only [hz, if_pos rfl]
      exact updateFilter_mem _ _ _
    · rw [if_neg hz]
      exact updateFilter_mem_preserve _ _ _ _ _ (fun h => (nomatch h)) (updateFilter_mem _ _ _)

theorem mem_findRunning_state (e : EC2) (ct : Option TagsSpec) (z : Option String)
    {i : Inst} (hi : i ∈ find_running_instances_by_count_tag e ct z) :
    i.state = "running" := by
  rw [find_running_instances_by_count_tag] at hi
  have hm := (List.mem_filter.mp hi).2
  have hcl : matchesClause i (FilterKey.stateName, "running") = true :=
    List.all_eq_true.mp hm _ (stateName_mem_filters ct z)
  simpa [matchesClause] using hcl

/-!
Claim C1.  Above-target reconciliation removes exactly the
lexicographically smallest identifiers.
-/

/-- C1: when the tag-matched running count C exceeds the target T,
`enforce_count` removes exactly the C−T lexicographically smallest
matched identifiers: the terminated-identifier list is a permutation
of the lowest-sorted prefix, that prefix has length C−T, consists of
matched identifiers each ≤ every kept matched identifier, and the
returned instance set is the matched set with exactly those
identifiers removed. -/
theorem C1_theorem (p : Params) (caps : BotoCaps) (e : EC2) (T : Int) (ct : TagsSpec)
    (hx : p.exact_count = some T) (hT : 0 ≤ T) (hct : p.count_tag = some ct)
    (hwait : p.wait = false) (hterm : ∀ i, e.terminateErr i = none)
    (hnd : (e.instances.map Inst.id).Nodup)
    (hgt : T < ((find_running_instances_by_count_tag e p.count_tag p.zone).length : Int)) :
    let matched := find_running_instances_by_count_tag e p.count_tag p.zone
    let remove_ids := (List.insertionSort (· ≤ ·) (matched.map Inst.id)).take
      (((matched.length : Int) - T).toNat)
    ∃ arr chids,
      (enforce_count p caps e).1 =
        .ok ((matched.filter (fun x => !(remove_ids.contains x.id))).map get_instance_info,
          arr, some chids, true) ∧
      chids.Perm remove_ids ∧
      (remove_ids.length : Int) = (matched.length : Int) - T ∧
      (∀ x ∈ remove_ids, x ∈ matched.map Inst.id) ∧
      (∀ x ∈ remove_ids, ∀ y ∈ matched.map Inst.id, y ∉ remove_ids → x ≤ y) ∧
      (∀ x ∈ remove_ids,
        x ∉ (matched.filter (fun x => !(remove_ids.contains x.id))).map Inst.id) := by
  intro matched remove_ids
  have hgt' : T < (matched.length : Int) := hgt
  have hstate : ∀ i ∈ matched, i.state = "running" := fun i hi =>
    mem_findRunning_state e p.count_tag p.zone hi
  have hmatchsub : ∀ i ∈ matched, i ∈ e.instances := fun i hi => (List.mem_filter.mp hi).1
  have hids_nodup : (matched.map Inst.id).Nodup :=
    hnd.sublist ((List.filter_sublist _).map Inst.id)
  have hperm := List.perm_insertionSort (· ≤ ·) (matched.map Inst.id)
  have hsorted := List.sorted_insertionSort (· ≤ ·) (matched.map Inst.id)
  have hlen : remove_ids.length = ((matched.length : Int) - T).toNat := by
    show (List.take _ _).length = _
    rw [List.length_take, hperm.length_eq, List.length_map]
    omega
  have hsubset : ∀ x ∈ remove_ids, x ∈ matched.map Inst.id := fun x hx =>
    hperm.mem_iff.mp ((List.take_sublist _ _).subset hx)
  have hmin : ∀ x ∈ remove_ids, ∀ y ∈ matched.map Inst.id, y ∉ remove_ids → x ≤ y := by
    intro x hx y hy hyn
    have hy' : y ∈ List.insertionSort (· ≤ ·) (matched.map Inst.id) := hperm.mem_iff.mpr hy
    rw [← List.take_append_drop (((matched.length : Int) - T).toNat)
      (List.insertionSort (· ≤ ·) (matched.map Inst.id))] at hy'
    rcases List.mem_append.mp hy' with h | h
    · exact absurd h hyn
    · exact hsorted.rel_of_mem_take_of_mem_drop hx h
  have hkept : ∀ x ∈ remove_ids,
      x ∉ (matched.filter (fun i => !(remove_ids.contains i.id))).map Inst.id := by
    intro x hx hmem
    obtain ⟨i, hi, rfl⟩ := List.mem_map.mp hmem
    have h2 := (List.mem_filter.mp hi).2
    exact absurd hx (by simpa using h2)
  have hremne : remove_ids ≠ [] := by
    apply List.ne_nil_of_length_pos
    rw [hlen]
    omega
  have hchanged : (e.instances.filter (fun i => remove_ids.contains i.id)).filter
      terminable ≠ [] := by
    obtain ⟨x, hx⟩ := List.exists_mem_of_ne_nil remove_ids hremne
    obtain ⟨i, hi, rfl⟩ := List.mem_map.mp (hsubset x hx)
    intro hnil
    have hmemf : i ∈ (e.instances.filter (fun j => remove_ids.contains j.id)).filter
        terminable := by
      refine List.mem_filter.mpr ⟨List.mem_filter.mpr ⟨hmatchsub i hi, by simpa using hx⟩, ?_⟩
      simp [terminable, hstate i hi]
    rw [hnil] at hmemf
    cases hmemf
  have hchid_mem : ∀ a,
      a ∈ ((e.instances.filter (fun i => remove_ids.contains i.id)).filter
        terminable).map Inst.id ↔ a ∈ remove_ids := by
    intro a
    constructor
    · intro ha
      obtain ⟨i, hi, rfl⟩ := List.mem_map.mp ha
      have h1 := (List.mem_filter.mp (List.mem_filter.mp hi).1).2
      simpa using h1
    · intro ha
      obtain ⟨i, hi, rfl⟩ := List.mem_map.mp (hsubset a ha)
      refine List.mem_map.mpr ⟨i, List.mem_filter.mpr
        ⟨List.mem_filter.mpr ⟨hmatchsub i hi, by simpa using ha⟩, ?_⟩, rfl⟩
      simp [terminable, hstate i hi]
  have hchid_nodup : (((e.instances.filter (fun i => remove_ids.contains i.id)).filter
      terminable).map Inst.id).Nodup :=
    hnd.sublist (((List.filter_sublist _).trans (List.filter_sublist _)).map Inst.id)
  have hrem_nodup : remove_ids.Nodup :=
    (hperm.nodup_iff.mpr hids_nodup).sublist (List.take_sublist _ _)
  have hperm2 : (((e.instances.filter (fun i => remove_ids.contains i.id)).filter
      terminable).map Inst.id).Perm remove_ids :=
    (List.perm_ext_iff_of_nodup hchid_nodup hrem_nodup).mpr hchid_mem
  obtain ⟨post', hp⟩ := terminateEach_spec e hterm
    (e.instances.filter (fun i => remove_ids.contains i.id)) e.instances [] [] false
  have hti : (terminate_instances p e remove_ids).1 =
      .ok (!((e.instances.filter (fun i => remove_ids.contains i.id)).filter
          terminable).isEmpty,
        ((e.instances.filter (fun i => remove_ids.contains i.id)).filter terminable).map
          get_instance_info,
        ((e.instances.filter (fun i => remove_ids.contains i.id)).filter terminable).map
          Inst.id) := by
    rw [terminate_instances, if_neg (by simp [isEmpty_false_of_ne_nil hremne])]
    simp only [withCalls, hp, andThen_ok, hwait, Bool.false_eq_true, if_false, cok,
      Prod.fst, List.nil_append, Bool.false_or]
  have hchval : (!((e.instances.filter (fun i => remove_ids.contains i.id)).filter
      terminable).isEmpty) = true := by
    rw [isEmpty_false_of_ne_nil hchanged]
    rfl
  have hguard : (truthyInt p.exact_count && p.count_tag.isNone) = false := by
    simp [hct]
  have hne1 : (((matched.length : Int) == T)) = false := by
    simp only [beq_eq_false_iff_ne, ne_eq]
    omega
  refine ⟨(((e.instances.filter (fun i => remove_ids.contains i.id)).filter terminable).map
      get_instance_info).map (fun d => { d with state := "terminated" }),
    ((e.instances.filter (fun i => remove_ids.contains i.id)).filter terminable).map Inst.id,
    ?_, hperm2, by rw [hlen]; omega, hsubset, hmin, hkept⟩
  rw [enforce_count]
  simp only [hguard, Bool.false_eq_true, if_false, hx, withCalls, hne1,
    if_neg (show ¬ ((matched.length : Int) < T) by omega)]
  rw [andThen_fst, hti, hchval]
  rw [if_neg (show ¬ ((truthyInt (some T) && p.count_tag.isNone) = true) by simp [hct])]
  rfl

/-- C1 witness: the spec scenario — matched running identifiers
[i-5, i-1, i-4, i-2, i-3] and target 3.  The two lowest-sorted
identifiers are exactly i-1 and i-2, the reconciliation reports
terminating exactly those, returns the other three, and the general
theorem applies at this input. -/
theorem C1_witness :
    ((List.insertionSort (· ≤ ·)
      ((find_running_instances_by_count_tag { instances := scenarioInstances }
        (some (.dict [("env", some "web")])) none).map Inst.id)).take 2 = ["i-1", "i-2"]) ∧
    (enforce_count
        { exact_count := some 3, count_tag := some (.dict [("env", some "web")]) } {}
        { instances := scenarioInstances }).1 =
      .ok ([{ id := "i-5", state := "running" }, { id := "i-4", state := "running" },
            { id := "i-3", state := "running" }],
        [{ id := "i-1", state := "terminated" }, { id := "i-2", state := "terminated" }],
        some ["i-1", "i-2"], true) ∧
    (let matched := find_running_instances_by_count_tag { instances := scenarioInstances }
        (some (TagsSpec.dict [("env", some "web")])) none
     let remove_ids := (List.insertionSort (· ≤ ·) (matched.map Inst.id)).take
       (((matched.length : Int) - 3).toNat)
     ∃ arr chids,
       (enforce_count
           { exact_count := some 3, count_tag := some (.dict [("env", some "web")]) } {}
           { instances := scenarioInstances }).1 =
         .ok ((matched.filter (fun x => !(remove_ids.contains x.id))).map get_instance_info,
           arr, some chids, true) ∧
       chids.Perm remove_ids ∧
       (remove_ids.length : Int) = (matched.length : Int) - 3 ∧
       (∀ x ∈ remove_ids, x ∈ matched.map Inst.id) ∧
       (∀ x ∈ remove_ids, ∀ y ∈ matched.map Inst.id, y ∉ remove_ids → x ≤ y) ∧
       (∀ x ∈ remove_ids,
         x ∉ (matched.filter (fun x => !(remove_ids.contains x.id))).map Inst.id)) := by
  have hfind : find_running_instances_by_count_tag { instances := scenarioInstances }
      (some (.dict [("env", some "web")])) none = scenarioInstances := by decide
  have hids : scenarioInstances.map Inst.id = ["i-5", "i-1", "i-4", "i-2", "i-3"] := by decide
  refine ⟨?_, ?_, ?_⟩
  · rw [hfind, hids]
    simp only [List.insertionSort, List.orderedInsert, String.le_iff_toList_le]
    decide
  · simp only [enforce_count, hfind, hids, List.insertionSort, List.orderedInsert,
      String.le_iff_toList_le]
    decide
  exact C1_theorem
    { exact_count := some 3, count_tag := some (.dict [("env", some "web")]) } {}
    { instances := scenarioInstances } 3 (.dict [("env", some "web")])
    rfl (by decide) rfl rfl (fun i => rfl) (by decide) (by decide)

end Ec2
